import Mathlib

/-!
# airdcpp-webapi: request envelope and setting items

A shallow embedding of `web-server/ApiRequest.cpp`, `api/ApiSettingItem.cpp`, and of the
registry and listener code of `api/SearchApi.cpp`, `api/ShareRootApi.cpp` and
`api/FavoriteHubApi.cpp`.

Conventions of the embedding:
* a `std::string` is a Lean `String`, one `Char` standing for one C++ `char`;
* a C++ `int` is an `Int` kept inside `[-2^31, 2^31)` by `wrapInt32` wherever a
  conversion narrows a wider value;
* a function that writes through reference parameters or mutates `this` returns the
  new values next to its result.
-/

set_option autoImplicit false

namespace webserver

/-! ## Machine integers -/

/-- The largest `int`, `std::numeric_limits<int>::max()` (`MAX_INT_VALUE` in ApiSettingItem.h). -/
def MAX_INT_VALUE : Int := 2147483647

/-- The smallest `int`. -/
def MIN_INT_VALUE : Int := -2147483648

/-- Conversion of a wider integer to a 32-bit `int`: the value modulo `2^32` taken in
`[-2^31, 2^31)`. -/
def wrapInt32 (n : Int) : Int := (n + 2147483648) % 4294967296 - 2147483648

/-- Conversion of an integer to `uint32_t`: the value modulo `2^32`. -/
def wrapUInt32 (n : Int) : Nat := (n % 4294967296).toNat

/-! ## Library routines used by the request envelope -/

/-- Modelled from the spec: `StringTokenizer` (client/StringTokenizer.h) is not among the
sources; the spec says the route path is split on the separator. The scan keeps the token
collected so far in `cur`; a separator closes the token, and the text after the last
separator is a token only when it is not empty. Whether an empty token between two
separators is kept is the tokenizer's `allowEmptyTokens` choice, left as a parameter. -/
def StringTokenizer.slice (tok : Char) (allowEmptyTokens : Bool) : List Char → List Char → List String
  | cur, [] => if cur.isEmpty then [] else [String.mk cur]
  | cur, c :: rest =>
    if c = tok then
      if allowEmptyTokens || !cur.isEmpty then String.mk cur :: StringTokenizer.slice tok allowEmptyTokens [] rest
      else StringTokenizer.slice tok allowEmptyTokens [] rest
    else StringTokenizer.slice tok allowEmptyTokens (cur ++ [c]) rest

/-- The tokens of `StringTokenizer(aString, aToken).getTokens()`. -/
def StringTokenizer.getTokens (allowEmptyTokens : Bool) (aString : String) (aToken : Char) : List String :=
  StringTokenizer.slice aToken allowEmptyTokens [] aString.data

/-- The C `isspace` test in the "C" locale: space, and the control characters 9 to 13. -/
def isspace (c : Char) : Bool := c = ' ' || (9 ≤ c.toNat && c.toNat ≤ 13)

/-- The C `isdigit` test. -/
def isdigit (c : Char) : Bool := 48 ≤ c.toNat && c.toNat ≤ 57

/-- The value of the longest run of decimal digits at the front of the text, continuing
from `acc`; the scan stops at the first character that is not a digit. -/
def digitsValue : Nat → List Char → Nat
  | acc, [] => acc
  | acc, c :: rest => if isdigit c then digitsValue (acc * 10 + (c.toNat - 48)) rest else acc

/-- The C `strtol(s, NULL, 10)` with a 64-bit `long`: leading white space is skipped, one
optional sign is read, then the digits; a value outside `long` is clamped. -/
def strtol (s : List Char) : Int :=
  match s.dropWhile isspace with
  | '-' :: rest => max (-(digitsValue 0 rest : Int)) (-9223372036854775808)
  | '+' :: rest => min (digitsValue 0 rest : Int) 9223372036854775807
  | rest => min (digitsValue 0 rest : Int) 9223372036854775807

/-- Modelled from the spec: `Util::toInt` (client/Util.h) is not among the sources; it is the
C library `atoi` applied to the text, that is `(int) strtol(s, NULL, 10)`. The result is an
`int`: text without a leading number gives 0, a value too wide for `int` is narrowed. -/
def Util.toInt (aString : String) : Int := wrapInt32 (strtol aString.data)

/-- Modelled from the spec: `Util::toUInt32` (client/Util.h) is not among the sources; it is
`(uint32_t) atoi(s)`. -/
def Util.toUInt32 (aString : String) : Nat := wrapUInt32 (Util.toInt aString)

/-! ## ApiRequest -/

/-- The request methods of ApiRequest.h; `METHOD_LAST` is the value of a request whose
method string was not recognised. -/
inductive Method where
  | METHOD_POST
  | METHOD_GET
  | METHOD_PUT
  | METHOD_DELETE
  | METHOD_PATCH
  | METHOD_LAST
  deriving DecidableEq, Repr

/-- The fields of an `ApiRequest` that the constructor and `validate` touch. -/
structure ApiRequest where
  /-- The `deque` of path tokens not consumed yet. -/
  parameters : List String
  apiVersion : Int
  apiModule : String
  apiSection : String
  method : Method
  deriving DecidableEq, Repr

/-- What ApiRequest.h and the tokenizer fix and the sources do not show: whether the
tokenizer keeps empty tokens, and the member initialisers of the envelope. -/
structure ApiRequestDefaults where
  allowEmptyTokens : Bool
  apiVersion : Int
  apiModule : String
  apiSection : String

/-- The constructor `ApiRequest::ApiRequest(aUrl, aMethod, ...)`: tokenises the path on
the slash and maps the method string; an unrecognised method string leaves `METHOD_LAST`. -/
def ApiRequest.construct (d : ApiRequestDefaults) (aUrl aMethod : String) : ApiRequest :=
  { parameters := StringTokenizer.getTokens d.allowEmptyTokens aUrl '/'
    apiVersion := d.apiVersion
    apiModule := d.apiModule
    apiSection := d.apiSection
    method :=
      if aMethod = "GET" then Method.METHOD_GET
      else if aMethod = "POST" then Method.METHOD_POST
      else if aMethod = "PUT" then Method.METHOD_PUT
      else if aMethod = "DELETE" then Method.METHOD_DELETE
      else if aMethod = "PATCH" then Method.METHOD_PATCH
      else Method.METHOD_LAST }

/-- The outcome of `validate`: the returned flag, the text left in `output_` and the
envelope after the call. -/
structure ValidateResult where
  ok : Bool
  output : String
  request : ApiRequest
  deriving DecidableEq, Repr

/-- The call `s.substr(pos)`: the text from position `pos` on. -/
def substr (s : String) (pos : Nat) : String := String.mk (s.data.drop pos)

/-- The call `parameters.front()`; on an empty `deque` the C++ call is undefined and
`validate` never reaches it, the model gives the empty text there. -/
def front (parameters : List String) : String := parameters.headD ""

/-- The call `parameters.pop_front()`. -/
def pop_front (parameters : List String) : List String := parameters.tail

/-- The tail of `validate` shared by both kinds of connection: the section token is taken
from the front of the parameters and the call returns true. -/
def ApiRequest.consumeSection (r : ApiRequest) (output_ : String) : ValidateResult :=
  { ok := true, output := output_,
    request := { r with apiSection := front r.parameters, parameters := pop_front r.parameters } }

/-- The method `ApiRequest::validate(aExistingSocket, output_)`. The parameter count is a
`deque` size, far below `2^31`, so the cast to `int` is the identity. -/
def ApiRequest.validate (r : ApiRequest) (aExistingSocket : Bool) (output_ : String) : ValidateResult :=
  if r.method = Method.METHOD_LAST then
    { ok := false, output := "Unsupported method", request := r }
  else if (r.parameters.length : Int) < (if aExistingSocket then 1 else 3) then
    { ok := false, output := "Not enough parameters", request := r }
  else if !aExistingSocket then
    let r1 := { r with apiModule := front r.parameters, parameters := pop_front r.parameters }
    let version := front r1.parameters
    let r2 := { r1 with parameters := pop_front r1.parameters }
    if version.length < 2 then
      { ok := false, output := "Invalid version", request := r2 }
    else
      ApiRequest.consumeSection { r2 with apiVersion := Util.toInt (substr version 1) } output_
  else
    ApiRequest.consumeSection r output_

/-- The accessor `ApiRequest::getTokenParam(pos)` for a position inside the parameters. -/
def ApiRequest.getTokenParam (r : ApiRequest) (pos : Nat) (h : pos < r.parameters.length) : Nat :=
  Util.toUInt32 (r.parameters.get ⟨pos, h⟩)

/-- The accessor `ApiRequest::getStringParam(pos)` for a position inside the parameters. -/
def ApiRequest.getStringParam (r : ApiRequest) (pos : Nat) (h : pos < r.parameters.length) : String :=
  r.parameters.get ⟨pos, h⟩

/-- The accessor `ApiRequest::getRangeParam(pos)` for a position inside the parameters. -/
def ApiRequest.getRangeParam (r : ApiRequest) (pos : Nat) (h : pos < r.parameters.length) : Int :=
  Util.toInt (r.parameters.get ⟨pos, h⟩)

/-- The five method strings the constructor recognises. -/
def recognisedMethods : List String := ["GET", "POST", "PUT", "DELETE", "PATCH"]

/-- The version token the spec asks for: the letter v followed by one or more decimal digits. -/
def isVersionToken (t : String) : Bool :=
  match t.data with
  | 'v' :: ds => !ds.isEmpty && ds.all Char.isDigit
  | _ => false

/-- The number a text of decimal digits denotes, most significant digit first. -/
def decimalValue (ds : List Char) : Nat := Nat.ofDigits 10 (ds.reverse.map fun c => c.toNat - 48)

/-- The failures the spec gives the parameter accessors. -/
inductive ParamError where
  | InvalidToken
  | InvalidRange
  deriving DecidableEq, Repr

/-- A text of one or more decimal digits. -/
def isDecimalDigits (ds : List Char) : Bool := !ds.isEmpty && ds.all Char.isDigit

/-- A decimal unsigned 32-bit integer: one or more digits denoting a value below `2^32`. -/
def isDecimalUInt32 (t : String) : Bool := isDecimalDigits t.data && decide (decimalValue t.data < 4294967296)

/-- The accessor as the spec words it: parses an unsigned 32-bit integer or fails with
InvalidToken. -/
def tokenParamSpec (t : String) : Except ParamError Nat :=
  if isDecimalUInt32 t then Except.ok (decimalValue t.data) else Except.error ParamError.InvalidToken

/-- A decimal signed integer: one or more digits, with or without a minus sign in front. -/
def isDecimalInt (t : String) : Bool :=
  match t.data with
  | '-' :: ds => isDecimalDigits ds
  | ds => isDecimalDigits ds

/-- The number a decimal signed integer denotes. -/
def signedValue (t : String) : Int :=
  match t.data with
  | '-' :: ds => -(decimalValue ds : Int)
  | ds => (decimalValue ds : Int)

/-- The accessor as the spec words it: parses a signed integer or fails with InvalidRange. -/
def rangeParamSpec (t : String) : Except ParamError Int :=
  if isDecimalInt t then Except.ok (signedValue t) else Except.error ParamError.InvalidRange

/-- The member initialisers used in the examples. -/
def exampleDefaults : ApiRequestDefaults := ⟨false, -1, "", ""⟩

/-! ## JSON values -/

/-- A JSON value as the setting items see it. Integers of either signedness are one case;
an array or an object is carried by its serialised text, the settings only look at its type
and compare it. -/
inductive Json where
  | null
  | boolean (b : Bool)
  | number_integer (n : Int)
  | number_float (q : Rat)
  | string (s : String)
  | array (dump : String)
  | object (dump : String)
  deriving DecidableEq

/-- The type tags of `json::type()`. -/
inductive Json.value_t where
  | null
  | boolean
  | number_integer
  | number_float
  | string
  | array
  | object
  deriving DecidableEq, Repr

/-- The call `json::type()`. -/
def Json.type : Json → Json.value_t
  | Json.null => Json.value_t.null
  | Json.boolean _ => Json.value_t.boolean
  | Json.number_integer _ => Json.value_t.number_integer
  | Json.number_float _ => Json.value_t.number_float
  | Json.string _ => Json.value_t.string
  | Json.array _ => Json.value_t.array
  | Json.object _ => Json.value_t.object

/-- The call `json::is_null()`. -/
def Json.is_null : Json → Bool
  | Json.null => true
  | _ => false

/-- The call `json::is_number()`: an integer or a floating-point number. -/
def Json.is_number : Json → Bool
  | Json.number_integer _ => true
  | Json.number_float _ => true
  | _ => false

/-- The conversion `const int num = aJson` of a JSON number: a `static_cast<int>` of the
stored number, which narrows a wide integer and drops the fraction of a floating-point
number. The conversion is only made on numbers; the other cases are given 0. -/
def Json.toInt32 : Json → Int
  | Json.number_integer n => wrapInt32 n
  | Json.number_float q => wrapInt32 (Int.tdiv q.num q.den)
  | _ => 0

/-! ## JsonUtil -/

/-- The error kinds of `JsonUtil`; the sources name `ERROR_INVALID`. -/
inductive JsonUtil.ErrorType where
  | ERROR_MISSING
  | ERROR_INVALID
  | ERROR_EXISTS
  deriving DecidableEq, Repr

/-- The validation error `JsonUtil::throwError` raises: the offending field and the kind. -/
structure ArgumentException where
  field : String
  errorType : JsonUtil.ErrorType
  deriving DecidableEq, Repr

/-- Modelled from the spec: `JsonUtil::ensureType` (web-server/JsonUtil.h) is not among the
sources; the spec says a value whose shape mismatches is a validation error. The value is
compared with the existing value the caller passes: for an existing number any number is
accepted, otherwise the JSON types must be equal. -/
def JsonUtil.ensureType (aFieldName : String) (aNew aExisting : Json) : Except ArgumentException Unit :=
  if aExisting.is_number then
    if !aNew.is_number then Except.error ⟨aFieldName, JsonUtil.ErrorType.ERROR_INVALID⟩
    else Except.ok ()
  else if aNew.type ≠ aExisting.type then Except.error ⟨aFieldName, JsonUtil.ErrorType.ERROR_INVALID⟩
  else Except.ok ()

/-- Modelled from the spec: `JsonUtil::validateRange` (web-server/JsonUtil.h) is not among the
sources; the spec says a numeric value outside the inclusive range is a validation error. -/
def JsonUtil.validateRange (aFieldName : String) (aValue aMin aMax : Int) : Except ArgumentException Unit :=
  if aValue < aMin || aValue > aMax then Except.error ⟨aFieldName, JsonUtil.ErrorType.ERROR_INVALID⟩
  else Except.ok ()

/-- Modelled from the spec: `JsonUtil::parseValue<int>` (web-server/JsonUtil.h) is not among
the sources; the spec says a value whose shape mismatches the declared type is a validation
error. A JSON number is converted to `int`; every other value, null included, is refused. -/
def JsonUtil.parseValueInt (aFieldName : String) (aJson : Json) : Except ArgumentException Int :=
  if aJson.is_number then Except.ok aJson.toInt32
  else Except.error ⟨aFieldName, JsonUtil.ErrorType.ERROR_INVALID⟩

/-- Modelled from the spec: `JsonUtil::parseValue<string>` (web-server/JsonUtil.h) is not among
the sources; a JSON string gives its text, every other value, null included, is refused. -/
def JsonUtil.parseValueString (aFieldName : String) (aJson : Json) : Except ArgumentException String :=
  match aJson with
  | Json.string s => Except.ok s
  | _ => Except.error ⟨aFieldName, JsonUtil.ErrorType.ERROR_INVALID⟩

/-- Modelled from the spec: `JsonUtil::parseValue<bool>` (web-server/JsonUtil.h) is not among
the sources; a JSON boolean gives its value, every other value, null included, is refused. -/
def JsonUtil.parseValueBool (aFieldName : String) (aJson : Json) : Except ArgumentException Bool :=
  match aJson with
  | Json.boolean b => Except.ok b
  | _ => Except.error ⟨aFieldName, JsonUtil.ErrorType.ERROR_INVALID⟩

/-! ## ApiSettingItem -/

/-- The enumeration `ApiSettingItem::Type`. -/
inductive SettingType where
  | TYPE_NUMBER
  | TYPE_BOOLEAN
  | TYPE_STRING
  | TYPE_FILE_PATH
  | TYPE_DIRECTORY_PATH
  | TYPE_TEXT
  | TYPE_LAST
  deriving DecidableEq, Repr

/-- The integer value of a `Type` enumerator. -/
def SettingType.toNat : SettingType → Nat
  | SettingType.TYPE_NUMBER => 0
  | SettingType.TYPE_BOOLEAN => 1
  | SettingType.TYPE_STRING => 2
  | SettingType.TYPE_FILE_PATH => 3
  | SettingType.TYPE_DIRECTORY_PATH => 4
  | SettingType.TYPE_TEXT => 5
  | SettingType.TYPE_LAST => 6

/-- The structure `ApiSettingItem::MinMax`. -/
structure MinMax where
  min : Int
  max : Int
  deriving DecidableEq, Repr

/-- The constant `ApiSettingItem::defaultMinMax`. -/
def defaultMinMax : MinMax := { min := 0, max := MAX_INT_VALUE }

/-- The test `ApiSettingItem::isString`. -/
def isString (aType : SettingType) : Bool :=
  aType = SettingType.TYPE_STRING || aType = SettingType.TYPE_TEXT ||
    aType = SettingType.TYPE_FILE_PATH || aType = SettingType.TYPE_DIRECTORY_PATH

/-! ## ServerSettingItem -/

/-- The members of a `ServerSettingItem`. -/
structure ServerSettingItem where
  name : String
  type : SettingType
  desc : String
  defaultValue : Json
  value : Json
  optional : Bool
  minMax : MinMax
  deriving DecidableEq

/-- The constructor `ServerSettingItem::ServerSettingItem`: the value starts as the default. -/
def ServerSettingItem.construct (aKey aTitle : String) (aDefaultValue : Json) (aType : SettingType)
    (aOptional : Bool) (aMinMax : MinMax) : ServerSettingItem :=
  { name := aKey, type := aType, desc := aTitle, defaultValue := aDefaultValue, value := aDefaultValue,
    optional := aOptional, minMax := aMinMax }

/-- The method `ServerSettingItem::getMinMax`. -/
def ServerSettingItem.getMinMax (item : ServerSettingItem) : MinMax := item.minMax

/-- The method `ServerSettingItem::unset`. -/
def ServerSettingItem.unset (item : ServerSettingItem) : ServerSettingItem :=
  { item with value := item.defaultValue }

/-- The method `ServerSettingItem::valueToJson`. -/
def ServerSettingItem.valueToJson (item : ServerSettingItem) (_aForceAutoValues : Bool) : Json × Bool :=
  (item.value, false)

/-- The method `ServerSettingItem::setCurValue`: the returned flag and the item afterwards, or
the validation error thrown, in which case the item is as before. -/
def ServerSettingItem.setCurValue (item : ServerSettingItem) (aJson : Json) :
    Except ArgumentException (Bool × ServerSettingItem) :=
  if aJson.is_null then Except.ok (true, item.unset)
  else
    match JsonUtil.ensureType item.name aJson item.defaultValue with
    | Except.error e => Except.error e
    | Except.ok _ =>
      if aJson.is_number then
        match JsonUtil.validateRange item.name aJson.toInt32 item.getMinMax.min item.getMinMax.max with
        | Except.error e => Except.error e
        | Except.ok _ => Except.ok (true, { item with value := aJson })
      else Except.ok (true, { item with value := aJson })

/-! ## The engine behind CoreSettingItem -/

/-- The setting keys of `SettingsManager` that ApiSettingItem.cpp names; the enumerators are
distinct integers, every other key is `other`. -/
inductive SettingKey where
  | TCP_PORT
  | UDP_PORT
  | TLS_PORT
  | MAPPER
  | BIND_ADDRESS
  | INCOMING_CONNECTIONS
  | EXTERNAL_IP
  | IP_UPDATE
  | NO_IP_OVERRIDE
  | BIND_ADDRESS6
  | INCOMING_CONNECTIONS6
  | EXTERNAL_IP6
  | IP_UPDATE6
  | NO_IP_OVERRIDE6
  | DOWNLOAD_SLOTS
  | MAX_DOWNLOAD_SPEED
  | MIN_UPLOAD_SPEED
  | AUTO_SLOTS
  | SLOTS
  | MAX_MCN_DOWNLOADS
  | MAX_MCN_UPLOADS
  | MAX_HASHING_THREADS
  | HASHERS_PER_VOLUME
  | AUTO_DETECT_CONNECTION
  | AUTO_DETECT_CONNECTION6
  | DL_AUTODETECT
  | UL_AUTODETECT
  | MCN_AUTODETECT
  | DESCRIPTION
  | EMAIL
  | DEFAULT_AWAY_MESSAGE
  | SKIPLIST_DOWNLOAD
  | SKIPLIST_SHARE
  | FREE_SLOTS_EXTENSIONS
  | other (id : Nat)
  deriving DecidableEq, Repr

/-- Modelled from the spec: `SettingsManager` is the engine's persistent settings store, not
among the sources; the spec gives it `get(key,type)` and `set(key,type,value)`. The store
holds one text, one `int` and one flag table. -/
structure SettingsManager where
  strSettings : SettingKey → String
  intSettings : SettingKey → Int
  boolSettings : SettingKey → Bool

/-- The call `SettingsManager::set(StrSetting, value)`. -/
def SettingsManager.setStr (sm : SettingsManager) (key : SettingKey) (value : String) : SettingsManager :=
  { sm with strSettings := fun k => if k = key then value else sm.strSettings k }

/-- The call `SettingsManager::set(IntSetting, value)`. -/
def SettingsManager.setInt (sm : SettingsManager) (key : SettingKey) (value : Int) : SettingsManager :=
  { sm with intSettings := fun k => if k = key then value else sm.intSettings k }

/-- The call `SettingsManager::set(BoolSetting, value)`. -/
def SettingsManager.setBool (sm : SettingsManager) (key : SettingKey) (value : Bool) : SettingsManager :=
  { sm with boolSettings := fun k => if k = key then value else sm.boolSettings k }

/-- Modelled from the spec: the engine's incoming-connection modes (SettingsManager.h) are not
among the sources; they are numbered from the disabled mode, -1, and `INCOMING_LAST` closes
the list. -/
def INCOMING_DISABLED : Int := -1

/-- Modelled from the spec: see `INCOMING_DISABLED`. -/
def INCOMING_LAST : Int := 3

/-- The enumeration `ResourceManager::Strings` of the engine's translated texts; `LAST`
closes the list and stands for no text. -/
inductive ResourceManager.Strings where
  | text (id : Nat)
  | LAST
  deriving DecidableEq, Repr

/-- The structure `AirUtil::AdapterInfo` as `infoToJson` reads it. -/
structure AdapterInfo where
  adapterName : String
  ip : String
  deriving DecidableEq, Repr

/-- Modelled from the spec: the live-detection providers and the settings store the spec
lists as external collaborators. Each field is what the named call returns at the moment a
setting item is read. -/
structure Engine where
  /-- The call `SettingsManager::getInstance()`. -/
  settings : SettingsManager
  /-- The call `ConnectionManager::getInstance()->getPort()`. -/
  connectionPort : String
  /-- The call `SearchManager::getInstance()->getPort()`. -/
  searchPort : String
  /-- The call `ConnectionManager::getInstance()->getSecurePort()`. -/
  securePort : String
  /-- The call `ConnectivityManager::getInstance()->get(StrSetting)`. -/
  connectivityStr : SettingKey → String
  /-- The call `ConnectivityManager::getInstance()->get(IntSetting)`. -/
  connectivityInt : SettingKey → Int
  /-- The call `ConnectivityManager::getInstance()->get(BoolSetting)`. -/
  connectivityBool : SettingKey → Bool
  /-- The call `AirUtil::getSlots(download)`. -/
  getSlots : Bool → Int
  /-- The call `AirUtil::getSpeedLimit(download)`. -/
  getSpeedLimit : Bool → Int
  /-- The call `AirUtil::getMaxAutoOpened()`. -/
  getMaxAutoOpened : Int
  /-- The call `AirUtil::getSlotsPerUser(download)`. -/
  getSlotsPerUser : Bool → Int
  /-- The call `Util::validatePath(path, true)`. -/
  validatePath : String → String
  /-- The call `ResourceManager::getInstance()->getString(text)`. -/
  getString : ResourceManager.Strings → String
  /-- The call `SettingsManager::getEnumStrings(key, false)`: the choices of an enumerated
  setting, empty for any other key. -/
  getEnumStrings : SettingKey → List (Int × ResourceManager.Strings)
  /-- The call `AirUtil::getBindAdapters(v6)`. -/
  getBindAdapters : Bool → List AdapterInfo
  /-- The call `ConnectivityManager::getInstance()->getMappers(false)`. -/
  getMappers : List String

/-- The macro `SETTING(k)` for a flag: the current value in the settings store. -/
def Engine.SETTING (e : Engine) (k : SettingKey) : Bool := e.settings.boolSettings k

/-! ## CoreSettingItem -/

/-- The enumeration `CoreSettingItem::Group`. -/
inductive Group where
  | GROUP_NONE
  | GROUP_CONN_V4
  | GROUP_CONN_V6
  | GROUP_CONN_GEN
  | GROUP_LIMITS_DL
  | GROUP_LIMITS_UL
  | GROUP_LIMITS_MCN
  deriving DecidableEq, Repr

/-- The integer value of a `Group` enumerator. -/
def Group.toNat : Group → Nat
  | Group.GROUP_NONE => 0
  | Group.GROUP_CONN_V4 => 1
  | Group.GROUP_CONN_V6 => 2
  | Group.GROUP_CONN_GEN => 3
  | Group.GROUP_LIMITS_DL => 4
  | Group.GROUP_LIMITS_UL => 5
  | Group.GROUP_LIMITS_MCN => 6

/-- The table `groupMappings`: the group of a key, `none` for a key without an entry. -/
def groupMappings : SettingKey → Option Group
  | SettingKey.TCP_PORT => some Group.GROUP_CONN_GEN
  | SettingKey.UDP_PORT => some Group.GROUP_CONN_GEN
  | SettingKey.TLS_PORT => some Group.GROUP_CONN_GEN
  | SettingKey.MAPPER => some Group.GROUP_CONN_GEN
  | SettingKey.BIND_ADDRESS => some Group.GROUP_CONN_V4
  | SettingKey.INCOMING_CONNECTIONS => some Group.GROUP_CONN_V4
  | SettingKey.EXTERNAL_IP => some Group.GROUP_CONN_V4
  | SettingKey.IP_UPDATE => some Group.GROUP_CONN_V4
  | SettingKey.NO_IP_OVERRIDE => some Group.GROUP_CONN_V4
  | SettingKey.BIND_ADDRESS6 => some Group.GROUP_CONN_V6
  | SettingKey.INCOMING_CONNECTIONS6 => some Group.GROUP_CONN_V6
  | SettingKey.EXTERNAL_IP6 => some Group.GROUP_CONN_V6
  | SettingKey.IP_UPDATE6 => some Group.GROUP_CONN_V6
  | SettingKey.NO_IP_OVERRIDE6 => some Group.GROUP_CONN_V6
  | SettingKey.DOWNLOAD_SLOTS => some Group.GROUP_LIMITS_DL
  | SettingKey.MAX_DOWNLOAD_SPEED => some Group.GROUP_LIMITS_DL
  | SettingKey.MIN_UPLOAD_SPEED => some Group.GROUP_LIMITS_UL
  | SettingKey.AUTO_SLOTS => some Group.GROUP_LIMITS_UL
  | SettingKey.SLOTS => some Group.GROUP_LIMITS_UL
  | SettingKey.MAX_MCN_DOWNLOADS => some Group.GROUP_LIMITS_MCN
  | SettingKey.MAX_MCN_UPLOADS => some Group.GROUP_LIMITS_MCN
  | _ => none

/-- The table `minMaxMappings`: the range of a key, `none` for a key without an entry. -/
def minMaxMappings : SettingKey → Option MinMax
  | SettingKey.TCP_PORT => some { min := 1, max := 65535 }
  | SettingKey.UDP_PORT => some { min := 1, max := 65535 }
  | SettingKey.TLS_PORT => some { min := 1, max := 65535 }
  | SettingKey.MAX_HASHING_THREADS => some { min := 1, max := 100 }
  | SettingKey.HASHERS_PER_VOLUME => some { min := 1, max := 100 }
  | SettingKey.INCOMING_CONNECTIONS => some { min := INCOMING_DISABLED, max := INCOMING_LAST }
  | SettingKey.INCOMING_CONNECTIONS6 => some { min := INCOMING_DISABLED, max := INCOMING_LAST }
  | _ => none

/-- The members of a `CoreSettingItem`: the name and type of the `ApiSettingItem` base, the
key and description of the `SettingItem` base, and the unit. -/
structure CoreSettingItem where
  name : String
  type : SettingType
  key : SettingKey
  desc : ResourceManager.Strings
  unit : ResourceManager.Strings
  deriving DecidableEq, Repr

/-- The macro `USE_AUTO(aType, aSetting)`: the table is searched for the toggle `aSetting`
named in the macro call, and the toggle's group is compared with `aType`. -/
def USE_AUTO (e : Engine) (aForceAutoValues : Bool) (aType : Group) (aSetting : SettingKey) : Bool :=
  ((groupMappings aSetting).isSome && decide (groupMappings aSetting = some aType)) &&
    (aForceAutoValues || e.SETTING aSetting)

/-- The method `CoreSettingItem::autoValueToJson`; `Json.null` is the value of the `json v`
no branch has assigned. The third test of the first condition compares the item's `type`
with the `Group` enumerator `GROUP_CONN_GEN`, that is their integer values. -/
def CoreSettingItem.autoValueToJson (item : CoreSettingItem) (e : Engine) (aForceAutoValues : Bool) : Json :=
  if USE_AUTO e aForceAutoValues Group.GROUP_CONN_V4 SettingKey.AUTO_DETECT_CONNECTION ||
      USE_AUTO e aForceAutoValues Group.GROUP_CONN_V6 SettingKey.AUTO_DETECT_CONNECTION6 ||
      (decide (item.type.toNat = Group.GROUP_CONN_GEN.toNat) &&
        (e.SETTING SettingKey.AUTO_DETECT_CONNECTION || e.SETTING SettingKey.AUTO_DETECT_CONNECTION6)) then
    if item.key = SettingKey.TCP_PORT then Json.string e.connectionPort
    else if item.key = SettingKey.UDP_PORT then Json.string e.searchPort
    else if item.key = SettingKey.TLS_PORT then Json.string e.securePort
    else if isString item.type then Json.string (e.connectivityStr item.key)
    else if item.type = SettingType.TYPE_NUMBER then Json.number_integer (e.connectivityInt item.key)
    else if item.type = SettingType.TYPE_BOOLEAN then Json.boolean (e.connectivityBool item.key)
    else Json.null
  else if USE_AUTO e aForceAutoValues Group.GROUP_LIMITS_DL SettingKey.DL_AUTODETECT then
    if item.key = SettingKey.DOWNLOAD_SLOTS then Json.number_integer (e.getSlots true)
    else if item.key = SettingKey.MAX_DOWNLOAD_SPEED then Json.number_integer (e.getSpeedLimit true)
    else Json.null
  else if USE_AUTO e aForceAutoValues Group.GROUP_LIMITS_UL SettingKey.UL_AUTODETECT then
    if item.key = SettingKey.SLOTS then Json.number_integer (e.getSlots false)
    else if item.key = SettingKey.MIN_UPLOAD_SPEED then Json.number_integer (e.getSpeedLimit false)
    else if item.key = SettingKey.AUTO_SLOTS then Json.number_integer e.getMaxAutoOpened
    else Json.null
  else if USE_AUTO e aForceAutoValues Group.GROUP_LIMITS_MCN SettingKey.MCN_AUTODETECT then
    Json.number_integer (e.getSlotsPerUser (decide (item.key = SettingKey.MAX_MCN_DOWNLOADS)))
  else Json.null

/-- The method `CoreSettingItem::getMinMax`. -/
def CoreSettingItem.getMinMax (item : CoreSettingItem) : MinMax :=
  match minMaxMappings item.key with
  | some mm => mm
  | none => defaultMinMax

/-- The method `CoreSettingItem::valueToJson`: the value and the flag telling whether it is
an auto detected value. -/
def CoreSettingItem.valueToJson (item : CoreSettingItem) (e : Engine) (aForceAutoValues : Bool) : Json × Bool :=
  let v := item.autoValueToJson e aForceAutoValues
  if !v.is_null then (v, true)
  else if isString item.type then (Json.string (e.settings.strSettings item.key), false)
  else if item.type = SettingType.TYPE_NUMBER then (Json.number_integer (e.settings.intSettings item.key), false)
  else if item.type = SettingType.TYPE_BOOLEAN then (Json.boolean (e.settings.boolSettings item.key), false)
  else (v, false)

/-- The method `CoreSettingItem::setCurValue`: the returned flag and the settings store
afterwards, or the validation error thrown, in which case the store is as before. -/
def CoreSettingItem.setCurValue (item : CoreSettingItem) (e : Engine) (aJson : Json) :
    Except ArgumentException (Bool × SettingsManager) :=
  if isString item.type then
    match JsonUtil.parseValueString item.name aJson with
    | Except.error err => Except.error err
    | Except.ok value =>
      let value := if item.type = SettingType.TYPE_DIRECTORY_PATH then e.validatePath value else value
      Except.ok (true, e.settings.setStr item.key value)
  else if item.type = SettingType.TYPE_NUMBER then
    match JsonUtil.parseValueInt item.name aJson with
    | Except.error err => Except.error err
    | Except.ok num =>
      match minMaxMappings item.key with
      | some minMax =>
        match JsonUtil.validateRange item.name num minMax.min minMax.max with
        | Except.error err => Except.error err
        | Except.ok _ => Except.ok (true, e.settings.setInt item.key num)
      | none => Except.ok (true, e.settings.setInt item.key num)
  else if item.type = SettingType.TYPE_BOOLEAN then
    match JsonUtil.parseValueBool item.name aJson with
    | Except.error err => Except.error err
    | Except.ok b => Except.ok (true, e.settings.setBool item.key b)
  else Except.ok (false, e.settings)

/-- The settings-store value of an item read under the item's type, as a JSON value. -/
def CoreSettingItem.storedValue (item : CoreSettingItem) (e : Engine) : Json :=
  match item.type with
  | SettingType.TYPE_NUMBER => Json.number_integer (e.settings.intSettings item.key)
  | SettingType.TYPE_BOOLEAN => Json.boolean (e.settings.boolSettings item.key)
  | SettingType.TYPE_STRING => Json.string (e.settings.strSettings item.key)
  | SettingType.TYPE_FILE_PATH => Json.string (e.settings.strSettings item.key)
  | SettingType.TYPE_DIRECTORY_PATH => Json.string (e.settings.strSettings item.key)
  | SettingType.TYPE_TEXT => Json.string (e.settings.strSettings item.key)
  | SettingType.TYPE_LAST => Json.null

/-- The auto-detect toggle of a group, for the groups that have one of their own. -/
def groupToggle : Group → Option SettingKey
  | Group.GROUP_CONN_V4 => some SettingKey.AUTO_DETECT_CONNECTION
  | Group.GROUP_CONN_V6 => some SettingKey.AUTO_DETECT_CONNECTION6
  | Group.GROUP_LIMITS_DL => some SettingKey.DL_AUTODETECT
  | Group.GROUP_LIMITS_UL => some SettingKey.UL_AUTODETECT
  | Group.GROUP_LIMITS_MCN => some SettingKey.MCN_AUTODETECT
  | _ => none

/-- The five auto-detect toggles are all off. -/
def togglesOff (e : Engine) : Prop :=
  e.SETTING SettingKey.AUTO_DETECT_CONNECTION = false ∧ e.SETTING SettingKey.AUTO_DETECT_CONNECTION6 = false ∧
  e.SETTING SettingKey.DL_AUTODETECT = false ∧ e.SETTING SettingKey.UL_AUTODETECT = false ∧
  e.SETTING SettingKey.MCN_AUTODETECT = false

/-- An engine for the examples: every text empty, every number `n`, every flag `b`. -/
def exampleEngine (n : Int) (b : Bool) : Engine :=
  { settings := { strSettings := fun _ => "", intSettings := fun _ => n, boolSettings := fun _ => b }
    connectionPort := "21248", searchPort := "21248", securePort := "21249"
    connectivityStr := fun _ => "", connectivityInt := fun _ => 0, connectivityBool := fun _ => false
    getSlots := fun _ => 7, getSpeedLimit := fun _ => 1024, getMaxAutoOpened := 2
    getSlotsPerUser := fun _ => 1, validatePath := fun p => p
    getString := fun _ => "", getEnumStrings := fun _ => [], getBindAdapters := fun _ => []
    getMappers := [] }

/-! ## Descriptions of setting items -/

/-- The comparison `json::operator==`: values of one kind are compared by content, an
integer and a floating-point number by their numeric value, values of different kinds
differ. -/
def Json.equals : Json → Json → Bool
  | Json.null, Json.null => true
  | Json.boolean a, Json.boolean b => a == b
  | Json.number_integer a, Json.number_integer b => a == b
  | Json.number_float a, Json.number_float b => a == b
  | Json.number_integer a, Json.number_float b => (a : Rat) == b
  | Json.number_float a, Json.number_integer b => a == (b : Rat)
  | Json.string a, Json.string b => a == b
  | Json.array a, Json.array b => a == b
  | Json.object a, Json.object b => a == b
  | _, _ => false

/-- The method `ServerSettingItem::isDefault`. -/
def ServerSettingItem.isDefault (item : ServerSettingItem) : Bool := item.value.equals item.defaultValue

/-- The method `ServerSettingItem::isOptional`. -/
def ServerSettingItem.isOptional (item : ServerSettingItem) : Bool := item.optional

/-- The method `ServerSettingItem::getTitle`. -/
def ServerSettingItem.getTitle (item : ServerSettingItem) : String := item.desc

/-- The function `ApiSettingItem::typeToStr`; `TYPE_LAST` reaches the assertion and gives the
empty text. -/
def typeToStr : SettingType → String
  | SettingType.TYPE_BOOLEAN => "boolean"
  | SettingType.TYPE_NUMBER => "number"
  | SettingType.TYPE_STRING => "string"
  | SettingType.TYPE_FILE_PATH => "file_path"
  | SettingType.TYPE_DIRECTORY_PATH => "directory_path"
  | SettingType.TYPE_TEXT => "text"
  | SettingType.TYPE_LAST => ""

/-- The function `ServerSettingItem::deserializeType`. -/
def deserializeType (aTypeStr : String) : SettingType :=
  if aTypeStr = "string" then SettingType.TYPE_STRING
  else if aTypeStr = "boolean" then SettingType.TYPE_BOOLEAN
  else if aTypeStr = "number" then SettingType.TYPE_NUMBER
  else if aTypeStr = "text" then SettingType.TYPE_TEXT
  else if aTypeStr = "file_path" then SettingType.TYPE_FILE_PATH
  else if aTypeStr = "directory_path" then SettingType.TYPE_DIRECTORY_PATH
  else SettingType.TYPE_LAST

/-- What a key of the document built by `infoToJson` holds: one JSON value, or the list of
objects pushed under the key. -/
inductive DocValue where
  | value (j : Json)
  | list (items : List (List (String × Json)))
  deriving DecidableEq

/-- The JSON object `ret` that `infoToJson` builds, as its keys with what they hold. -/
abbrev Document := List (String × DocValue)

/-- The assignment `ret[key] = v`: the key is added, or what it holds is replaced. -/
def Document.set : Document → String → DocValue → Document
  | [], key, v => [(key, v)]
  | (k, old) :: rest, key, v =>
    if k = key then (k, v) :: rest else (k, old) :: Document.set rest key v

/-- What the document holds under a key, `none` when the key is absent. -/
def Document.find : Document → String → Option DocValue
  | [], _ => none
  | (k, v) :: rest, key => if k = key then some v else Document.find rest key

/-- The test whether the document has the key. -/
def Document.containsKey (d : Document) (key : String) : Bool := (d.find key).isSome

/-- The call `ret[key].push_back(obj)`: the object is appended to the list under the key, a
key that is absent starts with the empty list. -/
def Document.push_back (d : Document) (key : String) (obj : List (String × Json)) : Document :=
  match d.find key with
  | some (DocValue.list items) => d.set key (DocValue.list (items ++ [obj]))
  | _ => d.set key (DocValue.list [obj])

/-- The method `ApiSettingItem::infoToJson`, given what the virtual methods `getTitle`,
`valueToJson`, `getMinMax` and `isOptional` of the item return. -/
def ApiSettingItem.infoToJson (title : String) (value : Json × Bool) (type : SettingType)
    (minMax : MinMax) (isOptional : Bool) : Document :=
  let ret : Document := []
  let ret := ret.set "title" (DocValue.value (Json.string title))
  let ret := if value.2 then ret.set "auto" (DocValue.value (Json.boolean true)) else ret
  let ret := ret.set "type" (DocValue.value (Json.string (typeToStr type)))
  let ret :=
    if type = SettingType.TYPE_NUMBER then
      let ret := if minMax.min ≠ 0 then ret.set "min" (DocValue.value (Json.number_integer minMax.min)) else ret
      if minMax.max ≠ MAX_INT_VALUE then ret.set "max" (DocValue.value (Json.number_integer minMax.max)) else ret
    else ret
  if isOptional then ret.set "optional" (DocValue.value (Json.boolean true)) else ret

/-- The method `ServerSettingItem::infoToJson`. -/
def ServerSettingItem.infoToJson (item : ServerSettingItem) (aForceAutoValues : Bool) : Document :=
  ApiSettingItem.infoToJson item.getTitle (item.valueToJson aForceAutoValues) item.type item.getMinMax
    item.isOptional

/-- The set `optionalSettingKeys`. -/
def optionalSettingKeys : List SettingKey :=
  [SettingKey.DESCRIPTION, SettingKey.EMAIL, SettingKey.EXTERNAL_IP, SettingKey.EXTERNAL_IP6,
   SettingKey.DEFAULT_AWAY_MESSAGE, SettingKey.SKIPLIST_DOWNLOAD, SettingKey.SKIPLIST_SHARE,
   SettingKey.FREE_SLOTS_EXTENSIONS]

/-- The method `CoreSettingItem::isOptional`. -/
def CoreSettingItem.isOptional (item : CoreSettingItem) : Bool := decide (item.key ∈ optionalSettingKeys)

/-- The method `CoreSettingItem::getTitle`: the description of the `SettingItem` base. -/
def CoreSettingItem.getTitle (item : CoreSettingItem) (e : Engine) : String := e.getString item.desc

/-- The method `CoreSettingItem::infoToJson`: the document of the base method, then the unit
and the choices of an enumerated setting. -/
def CoreSettingItem.infoToJson (item : CoreSettingItem) (e : Engine) (aForceAutoValues : Bool) : Document :=
  let ret := ApiSettingItem.infoToJson (item.getTitle e) (item.valueToJson e aForceAutoValues) item.type
    item.getMinMax item.isOptional
  let ret :=
    if item.unit ≠ ResourceManager.Strings.LAST then
      ret.set "unit" (DocValue.value (Json.string (e.getString item.unit)))
    else ret
  let enumStrings := e.getEnumStrings item.key
  if !enumStrings.isEmpty then
    enumStrings.foldl
      (fun r i => r.push_back "values" [("id", Json.number_integer i.1), ("name", Json.string (e.getString i.2))])
      ret
  else if item.key = SettingKey.BIND_ADDRESS || item.key = SettingKey.BIND_ADDRESS6 then
    (e.getBindAdapters (decide (item.key = SettingKey.BIND_ADDRESS6))).foldl
      (fun r adapter => r.push_back "values"
        [("id", Json.string adapter.ip),
         ("name", Json.string (adapter.ip ++
            (if !adapter.adapterName.isEmpty then " (" ++ adapter.adapterName ++ ")" else "")))])
      ret
  else if item.key = SettingKey.MAPPER then
    e.getMappers.foldl
      (fun r mapper => r.push_back "values" [("id", Json.string mapper), ("name", Json.string mapper)])
      ret
  else ret

/-! ## Declared server settings -/

/-- The declaration document `aJson` given to `fromJson`, seen through the seven fields the
function looks up; `none` is a field the document does not have. -/
structure Declaration where
  key : Option Json
  title : Option Json
  type : Option Json
  optional : Option Json
  defaultValue : Option Json
  min : Option Json
  max : Option Json
  deriving DecidableEq

/-- Modelled from the spec: `JsonUtil::getField<string>(name, aJson, false)` (web-server/JsonUtil.h)
is not among the sources. The field is required: a document without it fails with
`ERROR_MISSING`, a value that is not a string or is the empty string fails with
`ERROR_INVALID`. -/
def JsonUtil.getFieldString (aFieldName : String) (field : Option Json) : Except ArgumentException String :=
  match field with
  | none => Except.error ⟨aFieldName, JsonUtil.ErrorType.ERROR_MISSING⟩
  | some j =>
    match JsonUtil.parseValueString aFieldName j with
    | Except.error err => Except.error err
    | Except.ok v =>
      if v = "" then Except.error ⟨aFieldName, JsonUtil.ErrorType.ERROR_INVALID⟩ else Except.ok v

/-- Modelled from the spec: `JsonUtil::getOptionalFieldDefault<bool>` (web-server/JsonUtil.h) is
not among the sources. An absent or null field gives the default; any other value is parsed
as a flag. -/
def JsonUtil.getOptionalFieldDefaultBool (aFieldName : String) (field : Option Json) (aDefault : Bool) :
    Except ArgumentException Bool :=
  match field with
  | none => Except.ok aDefault
  | some Json.null => Except.ok aDefault
  | some j => JsonUtil.parseValueBool aFieldName j

/-- Modelled from the spec: `JsonUtil::getOptionalFieldDefault<int>` (web-server/JsonUtil.h) is
not among the sources. An absent or null field gives the default; any other value is parsed
as an `int`. -/
def JsonUtil.getOptionalFieldDefaultInt (aFieldName : String) (field : Option Json) (aDefault : Int) :
    Except ArgumentException Int :=
  match field with
  | none => Except.ok aDefault
  | some Json.null => Except.ok aDefault
  | some j => JsonUtil.parseValueInt aFieldName j

/-- Modelled from the spec: `JsonUtil::getOptionalRawField` (web-server/JsonUtil.h) is not among
the sources. The field's value is returned as it is; an absent field fails with
`ERROR_MISSING` when it is required and gives null otherwise. -/
def JsonUtil.getOptionalRawField (aFieldName : String) (field : Option Json) (aThrowIfMissing : Bool) :
    Except ArgumentException Json :=
  match field with
  | some j => Except.ok j
  | none =>
    if aThrowIfMissing then Except.error ⟨aFieldName, JsonUtil.ErrorType.ERROR_MISSING⟩
    else Except.ok Json.null

/-- The function `ServerSettingItem::fromJson`: the item constructed, or the validation error
thrown, in which case no item is constructed. -/
def ServerSettingItem.fromJson (aJson : Declaration) : Except ArgumentException ServerSettingItem :=
  match JsonUtil.getFieldString "key" aJson.key with
  | Except.error err => Except.error err
  | Except.ok key =>
    match JsonUtil.getFieldString "title" aJson.title with
    | Except.error err => Except.error err
    | Except.ok title =>
      match JsonUtil.getFieldString "type" aJson.type with
      | Except.error err => Except.error err
      | Except.ok typeStr =>
        let type := deserializeType typeStr
        if type = SettingType.TYPE_LAST then Except.error ⟨"type", JsonUtil.ErrorType.ERROR_INVALID⟩
        else
          match JsonUtil.getOptionalFieldDefaultBool "optional" aJson.optional false with
          | Except.error err => Except.error err
          | Except.ok isOptional =>
            if isOptional && (type = SettingType.TYPE_BOOLEAN || type = SettingType.TYPE_NUMBER) then
              Except.error ⟨"optional", JsonUtil.ErrorType.ERROR_INVALID⟩
            else
              match JsonUtil.getOptionalRawField "defaultValue" aJson.defaultValue (!isOptional) with
              | Except.error err => Except.error err
              | Except.ok defaultValue =>
                match JsonUtil.getOptionalFieldDefaultInt "min" aJson.min 0 with
                | Except.error err => Except.error err
                | Except.ok minValue =>
                  match JsonUtil.getOptionalFieldDefaultInt "max" aJson.max MAX_INT_VALUE with
                  | Except.error err => Except.error err
                  | Except.ok maxValue =>
                    Except.ok (ServerSettingItem.construct key title defaultValue type isOptional
                      { min := minValue, max := maxValue })

/-- The shape a value has for a declared type, as the spec words it: a JSON boolean for a
boolean setting, a JSON number for a number setting, a JSON string for a string-like
setting. -/
def shapeMatches (t : SettingType) (v : Json) : Bool :=
  match t with
  | SettingType.TYPE_BOOLEAN => decide (v.type = Json.value_t.boolean)
  | SettingType.TYPE_NUMBER => v.is_number
  | SettingType.TYPE_STRING => decide (v.type = Json.value_t.string)
  | SettingType.TYPE_FILE_PATH => decide (v.type = Json.value_t.string)
  | SettingType.TYPE_DIRECTORY_PATH => decide (v.type = Json.value_t.string)
  | SettingType.TYPE_TEXT => decide (v.type = Json.value_t.string)
  | SettingType.TYPE_LAST => false

/-! ## SearchApi -/

/-- The number of values of a `SearchInstanceToken`, a 32-bit unsigned integer. -/
def TOKEN_MODULUS : Nat := 4294967296

/-- The members of a `SearchEntity` the registry reads: its id and its expiration tick. -/
structure SearchEntity where
  id : Nat
  expirationTick : Nat
  deriving DecidableEq, Repr

/-- The members of a `SearchApi`: the id counter, a `SearchInstanceToken` whose declaration is
not among the sources, and the sub-module map of `ParentApiModule`, kept as its entities in
key order; the key of an entry is the id of its entity, as `createInstance` stores it. -/
structure SearchApi where
  instanceIdCounter : Nat
  subModules : List SearchEntity
  deriving DecidableEq, Repr

/-- Modelled from the spec: `ParentApiModule::addSubModule` (api/ApiModule.h) is not among the
sources; the spec describes a collection keyed by id. The entity is placed at its key; a key
that is already present keeps its entry. -/
def addSubModule : List SearchEntity → SearchEntity → List SearchEntity
  | [], m => [m]
  | x :: rest, m =>
    if m.id < x.id then m :: x :: rest
    else if m.id = x.id then x :: rest
    else x :: addSubModule rest m

/-- Modelled from the spec: `ParentApiModule::removeSubModule` (api/ApiModule.h) is not among
the sources; the spec says removal of an id that is absent changes nothing. The entry with
the key is erased. -/
def removeSubModule (subModules : List SearchEntity) (aId : Nat) : List SearchEntity :=
  subModules.filter fun m => m.id ≠ aId

/-- The method `SearchApi::createInstance`: the entity returned and the module afterwards.
The post-increment gives the old counter as the id and wraps at the token's width. -/
def SearchApi.createInstance (s : SearchApi) (aExpirationTick : Nat) : SearchEntity × SearchApi :=
  let id := s.instanceIdCounter
  let module : SearchEntity := { id := id, expirationTick := aExpirationTick }
  (module, { instanceIdCounter := (s.instanceIdCounter + 1) % TOKEN_MODULUS,
             subModules := addSubModule s.subModules module })

/-- The test of `SearchApi::onTimer` on one instance, `now` being what `GET_TICK()` gives. -/
def SearchEntity.expired (m : SearchEntity) (now : Nat) : Bool :=
  decide (m.expirationTick > 0) && decide (now > m.expirationTick)

/-- The method `SearchApi::onTimer`: the ids of the expired instances are collected, then each
is removed. All the readings of `GET_TICK()` during one run give the same tick `now`. -/
def SearchApi.onTimer (s : SearchApi) (now : Nat) : SearchApi :=
  let expiredIds := (s.subModules.filter fun m => m.expired now).map fun m => m.id
  { s with subModules := expiredIds.foldl removeSubModule s.subModules }

/-- The calls that reach the registry of a `SearchApi`. -/
inductive SearchApi.Call where
  | createInstance (aExpirationTick : Nat)
  | removeSubModule (aId : Nat)
  | onTimer (now : Nat)
  deriving DecidableEq, Repr

/-- The module after a sequence of calls, and the ids `createInstance` returned, in call
order. -/
def SearchApi.run : SearchApi → List SearchApi.Call → SearchApi × List Nat
  | s, [] => (s, [])
  | s, SearchApi.Call.createInstance t :: rest =>
    let r := s.createInstance t
    let out := SearchApi.run r.2 rest
    (out.1, r.1.id :: out.2)
  | s, SearchApi.Call.removeSubModule aId :: rest =>
    SearchApi.run { s with subModules := removeSubModule s.subModules aId } rest
  | s, SearchApi.Call.onTimer now :: rest => SearchApi.run (s.onTimer now) rest

/-- The number of `createInstance` calls in a sequence of calls. -/
def SearchApi.creations : List SearchApi.Call → Nat
  | [] => 0
  | SearchApi.Call.createInstance _ :: rest => SearchApi.creations rest + 1
  | _ :: rest => SearchApi.creations rest

/-- The sub-module map holds its entries in the order of their keys, each key once. -/
def SearchApi.wellFormed (s : SearchApi) : Prop :=
  List.Pairwise (fun a b => a < b) (s.subModules.map fun m => m.id)

/-- The number of values of a `uint64_t`, the type of a tick. -/
def UINT64_MODULUS : Nat := 18446744073709551616

/-- The constant `DEFAULT_INSTANCE_EXPIRATION_MINUTES`. -/
def DEFAULT_INSTANCE_EXPIRATION_MINUTES : Int := 30

/-- The argument `GET_TICK() + expirationMinutes * 60 * 1000` of `handleCreateInstance`: the
product is computed in `int`, each multiplication narrowed to 32 bits, then converted to
`uint64_t` and added to the tick modulo `2^64`. -/
def expirationTickOf (now : Nat) (expirationMinutes : Int) : Nat :=
  (now + (wrapInt32 (wrapInt32 (expirationMinutes * 60) * 1000) % (UINT64_MODULUS : Int)).toNat) %
    UINT64_MODULUS

/-- The method `SearchApi::handleCreateInstance`, given the tick `now` that `GET_TICK()` reads
and the field "expiration" of the request body: the instance created and the module
afterwards, or the validation error of the field. -/
def SearchApi.handleCreateInstance (s : SearchApi) (now : Nat) (expiration : Option Json) :
    Except ArgumentException (SearchEntity × SearchApi) :=
  match JsonUtil.getOptionalFieldDefaultInt "expiration" expiration DEFAULT_INSTANCE_EXPIRATION_MINUTES with
  | Except.error err => Except.error err
  | Except.ok expirationMinutes => Except.ok (s.createInstance (expirationTickOf now expirationMinutes))

/-- The names of the six setting types. -/
def typeNames : List String := ["boolean", "number", "string", "file_path", "directory_path", "text"]

/-! ## ShareRootApi -/

/-- The members of a `ShareDirectoryInfo` the module reads, with the identity `addr` of the
shared object: two pointers are equal when they point to one object. -/
structure ShareDirectoryInfo where
  addr : Nat
  path : String
  virtualName : String
  incoming : Bool
  deriving DecidableEq, Repr

/-- A `ShareDirectoryInfoPtr`; `none` is the null pointer. -/
abbrev ShareDirectoryInfoPtr := Option ShareDirectoryInfo

/-- What a listener of `ShareRootApi` does besides changing `roots`: the calls it makes on the
root view, and the payloads it sends, each given by the topic and the pointer handed to
`Serializer::serializeItem`. -/
inductive ShareRootEffect where
  | onItemAdded (item : ShareDirectoryInfoPtr)
  | onItemRemoved (item : ShareDirectoryInfoPtr)
  | send (topic : String) (serialized : ShareDirectoryInfoPtr)
  deriving DecidableEq, Repr

/-- The members of a `ShareRootApi` the root listeners read: the local roots, whether the root
view is active (`rootView.isActive()`), and the topics that have a subscriber. -/
structure ShareRootApi where
  roots : List ShareDirectoryInfo
  viewActive : Bool
  subscriptions : List String
  deriving DecidableEq, Repr

/-- Modelled from the spec: `SubscribableApiModule::subscriptionActive` (api/ApiModule.h) is not
among the sources; a topic is active when a client is subscribed to it. -/
def ShareRootApi.subscriptionActive (s : ShareRootApi) (topic : String) : Bool :=
  decide (topic ∈ s.subscriptions)

/-- Modelled from the spec: `SubscribableApiModule::maybeSend` (api/ApiModule.h) is not among
the sources; the spec says the payload producer is invoked only if the topic has a
subscriber. -/
def ShareRootApi.maybeSend (s : ShareRootApi) (topic : String) (serialized : ShareDirectoryInfoPtr) :
    List ShareRootEffect :=
  if s.subscriptionActive topic then [ShareRootEffect.send topic serialized] else []

/-- The method `ShareRootApi::findRoot`: the first root with the path, or the null pointer.
`ShareDirectoryInfo::PathCompare` is not among the sources and is taken to match equal
paths. -/
def ShareRootApi.findRoot (s : ShareRootApi) (aPath : String) : ShareDirectoryInfoPtr :=
  s.roots.find? fun r => r.path == aPath

/-- The listener `ShareRootApi::on(ShareManagerListener::RootCreated, aPath)`; `info` is the
root `ShareManager::getRootInfo(aPath)` returns for the root just created. -/
def ShareRootApi.onRootCreated (s : ShareRootApi) (info : ShareDirectoryInfo) :
    ShareRootApi × List ShareRootEffect :=
  ({ s with roots := s.roots ++ [info] },
   [ShareRootEffect.onItemAdded (some info)] ++ s.maybeSend "share_root_created" (some info))

/-- The listener `ShareRootApi::on(ShareManagerListener::RootRemoved, aPath)`. The local
`info` is the null pointer it is initialised with; the payload of the removal serialises
`info`. -/
def ShareRootApi.onRootRemoved (s : ShareRootApi) (aPath : String) : ShareRootApi × List ShareRootEffect :=
  let info : ShareDirectoryInfoPtr := none
  if !s.viewActive && !s.subscriptionActive "share_root_removed" then (s, [])
  else
    match s.findRoot aPath with
    | none => (s, [])
    | some root =>
      ({ s with roots := s.roots.filter fun r => r ≠ root },
       [ShareRootEffect.onItemRemoved (some root)] ++ s.maybeSend "share_root_removed" info)

/-- The root events the share manager delivers. -/
inductive ShareRootEvent where
  | RootCreated (info : ShareDirectoryInfo)
  | RootRemoved (aPath : String)
  deriving DecidableEq, Repr

/-- The module after a sequence of root events. -/
def ShareRootApi.deliver : ShareRootApi → List ShareRootEvent → ShareRootApi
  | s, [] => s
  | s, ShareRootEvent.RootCreated info :: rest => ShareRootApi.deliver (s.onRootCreated info).1 rest
  | s, ShareRootEvent.RootRemoved aPath :: rest => ShareRootApi.deliver (s.onRootRemoved aPath).1 rest

/-- The roots a sequence of events should leave, as the spec words it: the roots created and
not removed afterwards, in creation order. -/
def expectedRoots : List ShareDirectoryInfo → List ShareRootEvent → List ShareDirectoryInfo
  | roots, [] => roots
  | roots, ShareRootEvent.RootCreated info :: rest => expectedRoots (roots ++ [info]) rest
  | roots, ShareRootEvent.RootRemoved aPath :: rest =>
    expectedRoots (roots.filter fun r => r.path ≠ aPath) rest

/-- A root for the examples. -/
def exampleRoot : ShareDirectoryInfo := { addr := 1, path := "/share/", virtualName := "share", incoming := false }

/-! ## FavoriteHubApi -/

/-- The members of a `FavoriteHubEntry` that `updateProperties` reads or writes. -/
structure FavoriteHubEntry where
  token : Nat
  name : String
  server : String
  shareProfile : Int
  autoConnect : Bool
  description : String
  password : String
  nick : String
  userDescription : String
  nmdcEncoding : String
  connection : Int
  connection6 : Int
  userIp : String
  userIp6 : String
  deriving DecidableEq, Repr

/-- Modelled from the spec: what `updateProperties` asks of the engine, none of it among the
sources: the uniqueness test of the favorite manager, the test for an ADC address, the
default share profile setting, the constants `SP_HIDDEN`, `HUB_SETTING_DEFAULT_INT` and
`INCOMING_PASSIVE`, and whether the share manager knows a profile. -/
structure FavoriteHubEngine where
  isUnique : String → Nat → Bool
  isAdcHub : String → Bool
  DEFAULT_SP : Int
  SP_HIDDEN : Int
  HUB_SETTING_DEFAULT_INT : Int
  INCOMING_PASSIVE : Int
  hasShareProfile : Int → Bool

/-- The call `j.find(name)` on the request document, given as its items in key order. -/
def findField : List (String × Json) → String → Option Json
  | [], _ => none
  | (k, v) :: rest, name => if k = name then some v else findField rest name

/-- Modelled from the spec: `JsonUtil::getOptionalField<string>(name, j, required)`
(web-server/JsonUtil.h) is not among the sources. An absent or null field gives no value,
or fails with `ERROR_MISSING` when the field is required; any other value is parsed as a
string. -/
def JsonUtil.getOptionalFieldString (aFieldName : String) (field : Option Json) (aRequired : Bool) :
    Except ArgumentException (Option String) :=
  match field with
  | some (Json.string v) => Except.ok (some v)
  | none =>
    if aRequired then Except.error ⟨aFieldName, JsonUtil.ErrorType.ERROR_MISSING⟩ else Except.ok none
  | some Json.null =>
    if aRequired then Except.error ⟨aFieldName, JsonUtil.ErrorType.ERROR_MISSING⟩ else Except.ok none
  | some _ => Except.error ⟨aFieldName, JsonUtil.ErrorType.ERROR_INVALID⟩

/-- Modelled from the spec: `JsonUtil::getEnumField<int>(name, value, false, min, max)`
(web-server/JsonUtil.h) is not among the sources. The value is parsed as an `int` and must
lie in the inclusive range. -/
def JsonUtil.getEnumField (aFieldName : String) (aJson : Json) (aMin aMax : Int) : Except ArgumentException Int :=
  match JsonUtil.parseValueInt aFieldName aJson with
  | Except.error err => Except.error err
  | Except.ok v =>
    match JsonUtil.validateRange aFieldName v aMin aMax with
    | Except.error err => Except.error err
    | Except.ok _ => Except.ok v

/-- The function `FavoriteHubApi::deserializeIntHubSetting`. -/
def FavoriteHubApi.deserializeIntHubSetting (g : FavoriteHubEngine) (aFieldName : String)
    (aJson : List (String × Json)) : Except ArgumentException (Option Int) :=
  match findField aJson aFieldName with
  | none => Except.ok none
  | some p =>
    if p.is_null then Except.ok (some g.HUB_SETTING_DEFAULT_INT)
    else
      match JsonUtil.parseValueInt aFieldName p with
      | Except.error err => Except.error err
      | Except.ok v => Except.ok (some v)

/-- The first part of `FavoriteHubApi::updateProperties`, up to the comment "We have valid
values": the name, the address and the share profile read from the document, or the
validation error thrown. The entry is only read. -/
def FavoriteHubApi.readValidated (g : FavoriteHubEngine) (aEntry : FavoriteHubEntry)
    (j : List (String × Json)) (aNewHub : Bool) :
    Except ArgumentException (Option String × Option String × Option Int) :=
  match JsonUtil.getOptionalFieldString "name" (findField j "name") aNewHub with
  | Except.error err => Except.error err
  | Except.ok name =>
    match JsonUtil.getOptionalFieldString "hub_url" (findField j "hub_url") aNewHub with
    | Except.error err => Except.error err
    | Except.ok server =>
      if server.isSome && !g.isUnique (server.getD "") aEntry.token then
        Except.error ⟨"hub_url", JsonUtil.ErrorType.ERROR_EXISTS⟩
      else
        match FavoriteHubApi.deserializeIntHubSetting g "share_profile" j with
        | Except.error err => Except.error err
        | Except.ok shareProfileToken =>
          match shareProfileToken with
          | none => Except.ok (name, server, shareProfileToken)
          | some token =>
            if token ≠ g.HUB_SETTING_DEFAULT_INT then
              if !g.isAdcHub (server.getD aEntry.server) && token ≠ g.DEFAULT_SP && token ≠ g.SP_HIDDEN then
                Except.error ⟨"share_profile", JsonUtil.ErrorType.ERROR_INVALID⟩
              else if token ≠ 0 && !g.hasShareProfile token then
                Except.error ⟨"share_profile", JsonUtil.ErrorType.ERROR_INVALID⟩
              else Except.ok (name, server, shareProfileToken)
            else Except.ok (name, server, shareProfileToken)

/-- The body of the loop of `updateProperties` for one item of the document: the entry with
the value of a recognised key applied, or the validation error of the value. -/
def FavoriteHubApi.applyItem (g : FavoriteHubEngine) (aEntry : FavoriteHubEntry) (key : String)
    (value : Json) : Except ArgumentException FavoriteHubEntry :=
  if key = "auto_connect" then
    match JsonUtil.parseValueBool "auto_connect" value with
    | Except.error err => Except.error err
    | Except.ok v => Except.ok { aEntry with autoConnect := v }
  else if key = "hub_description" then
    match JsonUtil.parseValueString "hub_description" value with
    | Except.error err => Except.error err
    | Except.ok v => Except.ok { aEntry with description := v }
  else if key = "password" then
    match JsonUtil.parseValueString "password" value with
    | Except.error err => Except.error err
    | Except.ok v => Except.ok { aEntry with password := v }
  else if key = "nick" then
    match JsonUtil.parseValueString "nick" value with
    | Except.error err => Except.error err
    | Except.ok v => Except.ok { aEntry with nick := v }
  else if key = "user_description" then
    match JsonUtil.parseValueString "user_description" value with
    | Except.error err => Except.error err
    | Except.ok v => Except.ok { aEntry with userDescription := v }
  else if key = "nmdc_encoding" then
    match JsonUtil.parseValueString "nmdc_encoding" value with
    | Except.error err => Except.error err
    | Except.ok v => Except.ok { aEntry with nmdcEncoding := v }
  else if key = "connection_mode_v4" then
    match JsonUtil.getEnumField "connection_mode_v4" value INCOMING_DISABLED g.INCOMING_PASSIVE with
    | Except.error err => Except.error err
    | Except.ok v => Except.ok { aEntry with connection := v }
  else if key = "connection_mode_v6" then
    match JsonUtil.getEnumField "connection_mode_v6" value INCOMING_DISABLED g.INCOMING_PASSIVE with
    | Except.error err => Except.error err
    | Except.ok v => Except.ok { aEntry with connection6 := v }
  else if key = "connection_ip_v4" then
    match JsonUtil.parseValueString "connection_ip_v4" value with
    | Except.error err => Except.error err
    | Except.ok v => Except.ok { aEntry with userIp := v }
  else if key = "connection_ip_v6" then
    match JsonUtil.parseValueString "connection_ip_v6" value with
    | Except.error err => Except.error err
    | Except.ok v => Except.ok { aEntry with userIp6 := v }
  else Except.ok aEntry

/-- The loop of `updateProperties` over the items of the document: the validation error that
ended it, if any, and the entry as the loop left it. -/
def FavoriteHubApi.applyItems (g : FavoriteHubEngine) :
    FavoriteHubEntry → List (String × Json) → Option ArgumentException × FavoriteHubEntry
  | aEntry, [] => (none, aEntry)
  | aEntry, (key, value) :: rest =>
    match FavoriteHubApi.applyItem g aEntry key value with
    | Except.error err => (some err, aEntry)
    | Except.ok e1 => FavoriteHubApi.applyItems g e1 rest

/-- The method `FavoriteHubApi::updateProperties`, which changes the entry behind `aEntry` in
place: the validation error thrown, if any, and the entry after the call. -/
def FavoriteHubApi.updateProperties (g : FavoriteHubEngine) (aEntry : FavoriteHubEntry)
    (j : List (String × Json)) (aNewHub : Bool) : Option ArgumentException × FavoriteHubEntry :=
  match FavoriteHubApi.readValidated g aEntry j aNewHub with
  | Except.error err => (some err, aEntry)
  | Except.ok (name, server, shareProfileToken) =>
    let e1 := match name with
      | some v => { aEntry with name := v }
      | none => aEntry
    let e2 := match server with
      | some v => { e1 with server := v }
      | none => e1
    let e3 := match shareProfileToken with
      | some v => { e2 with shareProfile := v }
      | none => e2
    FavoriteHubApi.applyItems g e3 j

/-- An engine for the examples: every address is unique and an ADC address, every profile is
known. -/
def exampleHubEngine : FavoriteHubEngine :=
  { isUnique := fun _ _ => true, isAdcHub := fun _ => true, DEFAULT_SP := 0, SP_HIDDEN := 1,
    HUB_SETTING_DEFAULT_INT := MIN_INT_VALUE, INCOMING_PASSIVE := 2, hasShareProfile := fun _ => true }

/-- A favorite hub for the examples. -/
def exampleHub : FavoriteHubEntry :=
  { token := 7, name := "Old hub", server := "adcs://old.example:1511", shareProfile := 0,
    autoConnect := true, description := "", password := "", nick := "", userDescription := "",
    nmdcEncoding := "", connection := 0, connection6 := 0, userIp := "", userIp6 := "" }

/-! ## Theorems -/

/-! ### Tokenizer and number parsing -/

theorem slice_token (tok : Char) (b : Bool) (seg : List Char) (hseg : tok ∉ seg) (cur rest : List Char) :
    StringTokenizer.slice tok b cur (seg ++ rest) = StringTokenizer.slice tok b (cur ++ seg) rest := by
  induction seg generalizing cur with
  | nil => simp
  | cons c seg ih =>
    have hc : c ≠ tok := fun h => hseg (by simp [h])
    have hs : tok ∉ seg := fun h => hseg (by simp [h])
    rw [List.cons_append, StringTokenizer.slice, if_neg hc, ih hs]
    simp

theorem intercalate_go_data (acc : String) (l : List String) :
    (String.intercalate.go acc "/" l).data = acc.data ++ (l.map fun a => '/' :: a.data).flatten := by
  induction l generalizing acc with
  | nil => simp [String.intercalate.go]
  | cons a l ih => simp [String.intercalate.go, ih, String.data_append]

theorem slice_path (b : Bool) (l : List String) (hl : ∀ t ∈ l, t ≠ "" ∧ '/' ∉ t.data)
    (acc : String) (hacc : acc ≠ "" ∧ '/' ∉ acc.data) :
    StringTokenizer.slice '/' b [] (acc.data ++ (l.map fun a => '/' :: a.data).flatten) = acc :: l := by
  induction l generalizing acc with
  | nil =>
    have h := slice_token '/' b acc.data hacc.2 [] []
    simp only [List.nil_append] at h
    have hne : acc.data ≠ [] := fun h0 => hacc.1 (by cases acc; simp_all)
    simp only [List.map_nil, List.flatten_nil]
    rw [h]
    simp [StringTokenizer.slice, hne]
  | cons a l ih =>
    have h := slice_token '/' b acc.data hacc.2 [] ('/' :: (a.data ++ (l.map fun a => '/' :: a.data).flatten))
    simp only [List.nil_append] at h
    have hne : acc.data ≠ [] := fun h0 => hacc.1 (by cases acc; simp_all)
    have ha := hl a (by simp)
    have hl2 : ∀ t ∈ l, t ≠ "" ∧ '/' ∉ t.data := fun t ht => hl t (by simp [ht])
    simp only [List.map_cons, List.flatten_cons, List.cons_append]
    rw [h]
    simp [StringTokenizer.slice, hne, ih hl2 a ha]

theorem getTokens_path (b : Bool) (t : String) (l : List String)
    (hl : ∀ t1 ∈ t :: l, t1 ≠ "" ∧ '/' ∉ t1.data) :
    StringTokenizer.getTokens b (String.intercalate "/" (t :: l)) '/' = t :: l := by
  unfold StringTokenizer.getTokens
  rw [String.intercalate, intercalate_go_data]
  exact slice_path b l (fun t1 h1 => hl t1 (by simp [h1])) t (hl t (by simp))


theorem isDigit_eq_isdigit (c : Char) : c.isDigit = isdigit c := by
  simp only [Char.isDigit, isdigit, Char.toNat, UInt32.toNat, ge_iff_le, UInt32.le_def, BitVec.le_def]
  rfl

theorem digitsValue_digits (ds : List Char) (h : ∀ c ∈ ds, isdigit c = true) (acc : Nat) :
    digitsValue acc ds = acc * 10 ^ ds.length + decimalValue ds := by
  induction ds generalizing acc with
  | nil => simp [digitsValue, decimalValue]
  | cons c ds ih =>
    have hc := h c (by simp)
    have hs : ∀ c ∈ ds, isdigit c = true := fun x hx => h x (by simp [hx])
    rw [digitsValue, if_pos hc, ih hs]
    simp only [decimalValue, List.reverse_cons, List.map_append, List.map_cons, List.map_nil,
      Nat.ofDigits_append, Nat.ofDigits_singleton, List.length_map, List.length_reverse, List.length_cons]
    ring

theorem isdigit_not_space (c : Char) (h : isdigit c = true) : isspace c = false ∧ c ≠ '-' ∧ c ≠ '+' := by
  simp only [isdigit, Bool.and_eq_true, decide_eq_true_eq] at h
  refine ⟨?_, ?_, ?_⟩
  · simp only [isspace, Bool.or_eq_false_iff, decide_eq_false_iff_not, Bool.and_eq_false_iff]
    refine ⟨fun hc => ?_, Or.inr (by omega)⟩
    subst hc; simp at h
  · intro hc; subst hc; simp at h
  · intro hc; subst hc; simp at h

theorem strtol_digits (ds : List Char) (hne : ds ≠ []) (h : ∀ c ∈ ds, isdigit c = true) :
    strtol ds = min (decimalValue ds : Int) 9223372036854775807 := by
  cases ds with
  | nil => exact absurd rfl hne
  | cons c cs =>
    obtain ⟨h1, h2, h3⟩ := isdigit_not_space c (h c (by simp))
    have hd := digitsValue_digits (c :: cs) h 0
    unfold strtol
    rw [List.dropWhile_cons, if_neg (by simp [h1])]
    split
    · rename_i heq; simp at heq; exact absurd heq.1 h2
    · rename_i heq; simp at heq; exact absurd heq.1 h3
    · simp [hd]

theorem wrapInt32_of_fits (n : Int) (h0 : -2147483648 ≤ n) (h1 : n ≤ 2147483647) : wrapInt32 n = n := by
  unfold wrapInt32; omega

theorem toInt_digits (ds : List Char) (hne : ds ≠ []) (h : ∀ c ∈ ds, c.isDigit = true)
    (hv : (decimalValue ds : Int) ≤ MAX_INT_VALUE) : Util.toInt (String.mk ds) = decimalValue ds := by
  have h2 : ∀ c ∈ ds, isdigit c = true := fun c hc => by rw [← isDigit_eq_isdigit]; exact h c hc
  unfold MAX_INT_VALUE at hv
  unfold Util.toInt
  rw [strtol_digits ds hne h2, min_eq_left (by omega)]
  exact wrapInt32_of_fits _ (by omega) hv

theorem construct_method_recognised (d : ApiRequestDefaults) (aUrl aMethod : String)
    (h : aMethod ∈ recognisedMethods) : (ApiRequest.construct d aUrl aMethod).method ≠ Method.METHOD_LAST := by
  simp only [recognisedMethods, List.mem_cons, List.mem_singleton, List.not_mem_nil, or_false] at h
  rcases h with h | h | h | h | h <;> subst h <;> simp [ApiRequest.construct]

theorem construct_method_unrecognised (d : ApiRequestDefaults) (aUrl aMethod : String)
    (h : aMethod ∉ recognisedMethods) : (ApiRequest.construct d aUrl aMethod).method = Method.METHOD_LAST := by
  simp only [recognisedMethods, List.mem_cons, List.mem_singleton, List.not_mem_nil, or_false, not_or] at h
  obtain ⟨h1, h2, h3, h4, h5⟩ := h
  simp [ApiRequest.construct, h1, h2, h3, h4, h5]

theorem validate_fresh_three (r : ApiRequest) (hm : r.method ≠ Method.METHOD_LAST) (output_ : String)
    (m version s : String) (ps : List String) (hp : r.parameters = m :: version :: s :: ps)
    (hv : 2 ≤ version.length) :
    r.validate false output_ =
      { ok := true, output := output_,
        request := { parameters := ps, apiVersion := Util.toInt (substr version 1), apiModule := m,
                     apiSection := s, method := r.method } } := by
  have hv2 : ¬ version.length < 2 := by omega
  have hlen : ¬ ((m :: version :: s :: ps).length : Int) < 3 := by
    simp only [List.length_cons, Nat.cast_add, Nat.cast_one]; omega
  simp [ApiRequest.validate, hm, hp, front, pop_front, hv2, ApiRequest.consumeSection, -List.length_cons, hlen]

/-- C1, as amended: for every route path m/v<digits>/s/p1/.../pk without empty segments
whose digits denote a value of at most INT_MAX, and every one of the five method strings,
constructing the request and calling validate(false) returns true and leaves apiModule = m,
apiVersion = the value of the digits, apiSection = s and the remaining parameters equal to
[p1, ..., pk] in the original order. -/
theorem C1_validate_fresh_path (d : ApiRequestDefaults) (m s : String) (digits : List Char)
    (ps : List String) (aMethod output_ : String)
    (hmeth : aMethod ∈ recognisedMethods)
    (hseg : ∀ t ∈ m :: s :: ps, t ≠ "" ∧ '/' ∉ t.data)
    (hne : digits ≠ []) (hdig : ∀ c ∈ digits, c.isDigit = true)
    (hfit : (decimalValue digits : Int) ≤ MAX_INT_VALUE) :
    ((ApiRequest.construct d (String.intercalate "/" (m :: String.mk ('v' :: digits) :: s :: ps)) aMethod).validate
        false output_).ok = true ∧
    ((ApiRequest.construct d (String.intercalate "/" (m :: String.mk ('v' :: digits) :: s :: ps)) aMethod).validate
        false output_).request.apiModule = m ∧
    ((ApiRequest.construct d (String.intercalate "/" (m :: String.mk ('v' :: digits) :: s :: ps)) aMethod).validate
        false output_).request.apiVersion = (decimalValue digits : Int) ∧
    ((ApiRequest.construct d (String.intercalate "/" (m :: String.mk ('v' :: digits) :: s :: ps)) aMethod).validate
        false output_).request.apiSection = s ∧
    ((ApiRequest.construct d (String.intercalate "/" (m :: String.mk ('v' :: digits) :: s :: ps)) aMethod).validate
        false output_).request.parameters = ps := by
  have hm := construct_method_recognised d (String.intercalate "/" (m :: String.mk ('v' :: digits) :: s :: ps)) aMethod hmeth
  have hdv : ∀ c ∈ digits, c ≠ '/' := by
    intro c hc h; subst h; have := hdig _ hc; simp [Char.isDigit] at this
  have htok : StringTokenizer.getTokens d.allowEmptyTokens
      (String.intercalate "/" (m :: String.mk ('v' :: digits) :: s :: ps)) '/' =
      m :: String.mk ('v' :: digits) :: s :: ps := by
    apply getTokens_path
    intro t ht
    simp only [List.mem_cons] at ht
    rcases ht with h | h | h
    · exact hseg t (by simp [h])
    · subst h
      refine ⟨by simp [String.ext_iff], ?_⟩
      simp only [List.mem_cons, not_or]
      exact ⟨by decide, fun hc => hdv _ hc rfl⟩
    · exact hseg t (by simp only [List.mem_cons]; exact Or.inr h)
  have hlen : 2 ≤ (String.mk ('v' :: digits)).length := by
    cases digits with
    | nil => exact absurd rfl hne
    | cons c cs => simp [String.length]
  have hres := validate_fresh_three _ hm output_ m (String.mk ('v' :: digits)) s ps htok hlen
  rw [hres]
  refine ⟨rfl, rfl, ?_, rfl, rfl⟩
  show Util.toInt (substr (String.mk ('v' :: digits)) 1) = _
  simpa [substr] using toInt_digits digits hne hdig hfit

/-- The instance of C1 at the path module/v1/section/42 with the method GET. -/
theorem C1_witness :
    ((ApiRequest.construct exampleDefaults "module/v1/section/42" "GET").validate false "").ok = true ∧
    ((ApiRequest.construct exampleDefaults "module/v1/section/42" "GET").validate false "").request.apiModule = "module" ∧
    ((ApiRequest.construct exampleDefaults "module/v1/section/42" "GET").validate false "").request.apiVersion = 1 ∧
    ((ApiRequest.construct exampleDefaults "module/v1/section/42" "GET").validate false "").request.apiSection = "section" ∧
    ((ApiRequest.construct exampleDefaults "module/v1/section/42" "GET").validate false "").request.parameters = ["42"] :=
  C1_validate_fresh_path exampleDefaults "module" "section" ['1'] ["42"] "GET" ""
    (by decide) (by decide) (by decide) (by decide) (by decide)

/-- C1 as first stated fails at module/v4294967296/section: validate(false) returns true
and apiVersion, an int, is 0 and not the value 4294967296 of the digits. -/
theorem C1_counterexample :
    ((ApiRequest.construct exampleDefaults "module/v4294967296/section" "GET").validate false "").ok = true ∧
    ((ApiRequest.construct exampleDefaults "module/v4294967296/section" "GET").validate false "").request.apiVersion = 0 ∧
    decimalValue "4294967296".data = 4294967296 := by
  decide

theorem validate_failure_reasons (r : ApiRequest) (b : Bool) (output_ : String) :
    (r.validate b output_).ok = false →
      ((r.validate b output_).output = "Unsupported method" ∧ r.method = Method.METHOD_LAST) ∨
      ((r.validate b output_).output = "Not enough parameters" ∧ r.method ≠ Method.METHOD_LAST ∧
        (r.parameters.length : Int) < (if b then 1 else 3)) ∨
      ((r.validate b output_).output = "Invalid version" ∧ r.method ≠ Method.METHOD_LAST ∧
        ¬ (r.parameters.length : Int) < (if b then 1 else 3) ∧ b = false ∧
        (front (pop_front r.parameters)).length < 2) := by
  unfold ApiRequest.validate
  by_cases hm : r.method = Method.METHOD_LAST
  · simp [hm]
  · by_cases hl : (r.parameters.length : Int) < (if b then 1 else 3)
    · simp [hm, hl]
    · rw [if_neg hm, if_neg hl]
      cases b with
      | true => simp [ApiRequest.consumeSection]
      | false =>
        by_cases hv : (front (pop_front r.parameters)).length < 2
        · have hl3 : 3 ≤ r.parameters.length := by
            simp only [Bool.false_eq_true, if_false] at hl; omega
          simp [hv, hm, hl3]
        · simp [hv, ApiRequest.consumeSection]

/-- C2: whatever the path and the kind of connection, a method string that is not one of GET,
POST, PUT, DELETE, PATCH makes validate return false with the reason "Unsupported method",
and for each of the five strings validate never fails with that reason. -/
theorem C2_unsupported_method (d : ApiRequestDefaults) (aUrl aMethod : String) (aExistingSocket : Bool)
    (output_ : String) :
    (aMethod ∉ recognisedMethods →
      ((ApiRequest.construct d aUrl aMethod).validate aExistingSocket output_).ok = false ∧
      ((ApiRequest.construct d aUrl aMethod).validate aExistingSocket output_).output = "Unsupported method") ∧
    (aMethod ∈ recognisedMethods →
      ¬ (((ApiRequest.construct d aUrl aMethod).validate aExistingSocket output_).ok = false ∧
         ((ApiRequest.construct d aUrl aMethod).validate aExistingSocket output_).output = "Unsupported method")) := by
  constructor
  · intro h
    have hm := construct_method_unrecognised d aUrl aMethod h
    simp [ApiRequest.validate, hm]
  · intro h ⟨hok, hout⟩
    have hm := construct_method_recognised d aUrl aMethod h
    rcases validate_failure_reasons _ aExistingSocket output_ hok with h1 | h1 | h1
    · exact hm h1.2
    · rw [h1.1] at hout; exact absurd hout (by decide)
    · rw [h1.1] at hout; exact absurd hout (by decide)

/-- The instance of C2 at the method strings HEAD and GET. -/
theorem C2_witness :
    (((ApiRequest.construct exampleDefaults "module/v1/section/42" "HEAD").validate false "").ok = false ∧
     ((ApiRequest.construct exampleDefaults "module/v1/section/42" "HEAD").validate false "").output = "Unsupported method") ∧
    ¬ (((ApiRequest.construct exampleDefaults "module" "GET").validate false "").ok = false ∧
       ((ApiRequest.construct exampleDefaults "module" "GET").validate false "").output = "Unsupported method") :=
  ⟨(C2_unsupported_method exampleDefaults "module/v1/section/42" "HEAD" false "").1 (by decide),
   (C2_unsupported_method exampleDefaults "module" "GET" false "").2 (by decide)⟩

/-- C3: for a request with a recognised method, validate(false) returns false with the
reason "Not enough parameters" if and only if the tokenised path has fewer than 3
parameters, and validate(true) does so if and only if it has fewer than 1. -/
theorem C3_not_enough_parameters (d : ApiRequestDefaults) (aUrl aMethod output_ : String)
    (hmeth : aMethod ∈ recognisedMethods) :
    ((((ApiRequest.construct d aUrl aMethod).validate false output_).ok = false ∧
      ((ApiRequest.construct d aUrl aMethod).validate false output_).output = "Not enough parameters") ↔
      (StringTokenizer.getTokens d.allowEmptyTokens aUrl '/').length < 3) ∧
    ((((ApiRequest.construct d aUrl aMethod).validate true output_).ok = false ∧
      ((ApiRequest.construct d aUrl aMethod).validate true output_).output = "Not enough parameters") ↔
      (StringTokenizer.getTokens d.allowEmptyTokens aUrl '/').length < 1) := by
  have hm := construct_method_recognised d aUrl aMethod hmeth
  have hp : (ApiRequest.construct d aUrl aMethod).parameters =
      StringTokenizer.getTokens d.allowEmptyTokens aUrl '/' := rfl
  constructor
  · constructor
    · intro ⟨hok, hout⟩
      rcases validate_failure_reasons _ false output_ hok with h1 | h1 | h1
      · exact absurd h1.2 hm
      · have := h1.2.2; rw [hp] at this; simpa using this
      · rw [h1.1] at hout; exact absurd hout (by decide)
    · intro h
      have hl : ((ApiRequest.construct d aUrl aMethod).parameters.length : Int) < 3 := by
        rw [hp]; exact_mod_cast h
      simp [ApiRequest.validate, hm, hl]
  · constructor
    · intro ⟨hok, hout⟩
      rcases validate_failure_reasons _ true output_ hok with h1 | h1 | h1
      · exact absurd h1.2 hm
      · have := h1.2.2; rw [hp] at this; simpa using this
      · exact absurd h1.2.2.2.1 (by decide)
    · intro h
      have hl : ((ApiRequest.construct d aUrl aMethod).parameters.length : Int) < 1 := by
        rw [hp]; exact_mod_cast h
      simp [ApiRequest.validate, hm, hl]

/-- The instance of C3 at the path module/v1 with the method GET. -/
theorem C3_witness :
    ((((ApiRequest.construct exampleDefaults "module/v1" "GET").validate false "").ok = false ∧
      ((ApiRequest.construct exampleDefaults "module/v1" "GET").validate false "").output = "Not enough parameters") ↔
      (StringTokenizer.getTokens exampleDefaults.allowEmptyTokens "module/v1" '/').length < 3) ∧
    ((((ApiRequest.construct exampleDefaults "module/v1" "GET").validate true "").ok = false ∧
      ((ApiRequest.construct exampleDefaults "module/v1" "GET").validate true "").output = "Not enough parameters") ↔
      (StringTokenizer.getTokens exampleDefaults.allowEmptyTokens "module/v1" '/').length < 1) :=
  C3_not_enough_parameters exampleDefaults "module/v1" "GET" "" (by decide)

theorem isVersionToken_length (t : String) (h : isVersionToken t = true) : 2 ≤ t.length := by
  unfold isVersionToken at h
  split at h
  · rename_i ds heq
    cases ds with
    | nil => simp at h
    | cons c cs => simp [String.length, heq]
  · exact absurd h (by decide)

/-- C4, as amended: for a request on a fresh connection with a recognised method and at least
3 parameters, validate(false) fails with the reason "Invalid version" exactly when the
second parameter has fewer than two characters; every longer second parameter is accepted,
with apiVersion the number Util::toInt reads after its first character, and so a token of
the form v<digits> always passes. -/
theorem C4_invalid_version (r : ApiRequest) (hm : r.method ≠ Method.METHOD_LAST) (output_ : String)
    (m version s : String) (ps : List String) (hp : r.parameters = m :: version :: s :: ps) :
    (((r.validate false output_).ok = false ∧ (r.validate false output_).output = "Invalid version") ↔
      version.length < 2) ∧
    (2 ≤ version.length →
      (r.validate false output_).ok = true ∧
      (r.validate false output_).request.apiVersion = Util.toInt (substr version 1)) ∧
    (isVersionToken version = true → (r.validate false output_).ok = true) := by
  have hlen : ¬ ((m :: version :: s :: ps).length : Int) < 3 := by
    simp only [List.length_cons, Nat.cast_add, Nat.cast_one]; omega
  have hok : 2 ≤ version.length →
      (r.validate false output_).ok = true ∧
      (r.validate false output_).request.apiVersion = Util.toInt (substr version 1) := by
    intro hv
    rw [validate_fresh_three r hm output_ m version s ps hp hv]
    exact ⟨rfl, rfl⟩
  refine ⟨⟨?_, ?_⟩, hok, fun h => (hok (isVersionToken_length version h)).1⟩
  · intro ⟨hf, _⟩
    by_contra hv
    rw [(hok (by omega)).1] at hf
    exact absurd hf (by decide)
  · intro hv
    simp [ApiRequest.validate, hm, hp, front, pop_front, hv, -List.length_cons, hlen]

/-- The instance of C4 at the request built from module/v/section with the method GET. -/
theorem C4_witness :
    ((((ApiRequest.construct exampleDefaults "module/v/section" "GET").validate false "").ok = false ∧
      ((ApiRequest.construct exampleDefaults "module/v/section" "GET").validate false "").output = "Invalid version") ↔
      "v".length < 2) ∧
    (2 ≤ "v".length →
      ((ApiRequest.construct exampleDefaults "module/v/section" "GET").validate false "").ok = true ∧
      ((ApiRequest.construct exampleDefaults "module/v/section" "GET").validate false "").request.apiVersion =
        Util.toInt (substr "v" 1)) ∧
    (isVersionToken "v" = true →
      ((ApiRequest.construct exampleDefaults "module/v/section" "GET").validate false "").ok = true) :=
  C4_invalid_version (ApiRequest.construct exampleDefaults "module/v/section" "GET") (by decide) ""
    "module" "v" "section" [] (by decide)

/-- C4 as first stated fails at module/x1/section: the second parameter x1 is not of the
form v<digits>, and validate(false) returns true with apiVersion 1. -/
theorem C4_counterexample :
    isVersionToken "x1" = false ∧
    ((ApiRequest.construct exampleDefaults "module/x1/section" "GET").validate false "").ok = true ∧
    ((ApiRequest.construct exampleDefaults "module/x1/section" "GET").validate false "").request.apiVersion = 1 := by
  decide

/-- C5: for a request with a recognised method and the parameters [s, p1, ..., pk],
validate(true) returns true, sets apiSection = s, leaves [p1, ..., pk] as the remaining
parameters and leaves apiModule, apiVersion, the method and the output text as they were,
whatever the tokens are. -/
theorem C5_existing_connection (r : ApiRequest) (hm : r.method ≠ Method.METHOD_LAST) (s : String)
    (ps : List String) (hp : r.parameters = s :: ps) (output_ : String) :
    r.validate true output_ =
      { ok := true, output := output_,
        request := { parameters := ps, apiVersion := r.apiVersion, apiModule := r.apiModule,
                     apiSection := s, method := r.method } } := by
  have hlen : ¬ ((s :: ps).length : Int) < 1 := by
    simp only [List.length_cons, Nat.cast_add, Nat.cast_one]; omega
  simp [ApiRequest.validate, hm, hp, front, pop_front, ApiRequest.consumeSection, -List.length_cons, hlen]

/-- The instance of C5 at an envelope with the parameters section, x, 42. -/
theorem C5_witness :
    (ApiRequest.mk ["section", "x", "42"] 7 "module" "" Method.METHOD_POST).validate true "" =
      { ok := true, output := "",
        request := { parameters := ["x", "42"], apiVersion := 7, apiModule := "module",
                     apiSection := "section", method := Method.METHOD_POST } } :=
  C5_existing_connection (ApiRequest.mk ["section", "x", "42"] 7 "module" "" Method.METHOD_POST)
    (by decide) "section" ["x", "42"] rfl ""

theorem isDecimalDigits_spec (ds : List Char) (h : isDecimalDigits ds = true) :
    ds ≠ [] ∧ ∀ c ∈ ds, isdigit c = true := by
  simp only [isDecimalDigits, Bool.and_eq_true, Bool.not_eq_true', List.isEmpty_eq_false,
    List.all_eq_true] at h
  exact ⟨h.1, fun c hc => by rw [← isDigit_eq_isdigit]; exact h.2 c hc⟩

theorem toUInt32_decimal (t : String) (h : isDecimalUInt32 t = true) :
    Util.toUInt32 t = decimalValue t.data := by
  simp only [isDecimalUInt32, Bool.and_eq_true, decide_eq_true_eq] at h
  obtain ⟨hne, hd⟩ := isDecimalDigits_spec t.data h.1
  have hv := h.2
  unfold Util.toUInt32 Util.toInt
  rw [strtol_digits t.data hne hd, min_eq_left (by omega)]
  unfold wrapUInt32 wrapInt32
  omega

theorem toInt_decimal (t : String) (h : isDecimalInt t = true)
    (h0 : MIN_INT_VALUE ≤ signedValue t) (h1 : signedValue t ≤ MAX_INT_VALUE) :
    Util.toInt t = signedValue t := by
  unfold MIN_INT_VALUE at h0
  unfold MAX_INT_VALUE at h1
  unfold Util.toInt
  by_cases hneg : ∃ ds, t.data = '-' :: ds
  · obtain ⟨ds, hds⟩ := hneg
    simp only [isDecimalInt, hds] at h
    simp only [signedValue, hds] at h0 h1 ⊢
    obtain ⟨_, hd⟩ := isDecimalDigits_spec ds h
    have hval := digitsValue_digits ds hd 0
    have hsp : isspace '-' = false := by decide
    simp only [strtol, hds, List.dropWhile_cons, hsp, Bool.false_eq_true, if_false, hval]
    rw [max_eq_left (by simp only [Nat.zero_mul, Nat.zero_add]; omega)]
    simp only [Nat.zero_mul, Nat.zero_add]
    exact wrapInt32_of_fits _ h0 h1
  · have hform : isDecimalDigits t.data = true ∧ signedValue t = (decimalValue t.data : Int) := by
      unfold isDecimalInt at h
      unfold signedValue
      split at h
      · rename_i ds heq; exact absurd ⟨ds, heq⟩ hneg
      · exact ⟨h, rfl⟩
    obtain ⟨hne, hd⟩ := isDecimalDigits_spec t.data hform.1
    rw [hform.2] at h0 h1 ⊢
    rw [strtol_digits t.data hne hd, min_eq_left (by omega)]
    exact wrapInt32_of_fits _ h0 h1

/-- C6, as amended: for every in-range position, getTokenParam returns the value of the token
when the token is a decimal unsigned 32-bit integer, getRangeParam returns the signed value
when the token is a decimal signed integer that fits an int, and getStringParam returns the
token unchanged; the accessors never fail, on every token they return Util::toUInt32 and
Util::toInt of it. -/
theorem C6_param_accessors (r : ApiRequest) (pos : Nat) (h : pos < r.parameters.length) :
    (isDecimalUInt32 (r.parameters.get ⟨pos, h⟩) = true →
      Except.ok (r.getTokenParam pos h) = tokenParamSpec (r.parameters.get ⟨pos, h⟩)) ∧
    (isDecimalInt (r.parameters.get ⟨pos, h⟩) = true →
      MIN_INT_VALUE ≤ signedValue (r.parameters.get ⟨pos, h⟩) →
      signedValue (r.parameters.get ⟨pos, h⟩) ≤ MAX_INT_VALUE →
      Except.ok (r.getRangeParam pos h) = rangeParamSpec (r.parameters.get ⟨pos, h⟩)) ∧
    r.getStringParam pos h = r.parameters.get ⟨pos, h⟩ ∧
    r.getTokenParam pos h = Util.toUInt32 (r.parameters.get ⟨pos, h⟩) ∧
    r.getRangeParam pos h = Util.toInt (r.parameters.get ⟨pos, h⟩) := by
  refine ⟨fun hd => ?_, fun hd h0 h1 => ?_, rfl, rfl, rfl⟩
  · simp only [tokenParamSpec, hd, if_true, ApiRequest.getTokenParam]
    rw [toUInt32_decimal _ hd]
  · simp only [rangeParamSpec, hd, if_true, ApiRequest.getRangeParam]
    rw [toInt_decimal _ hd h0 h1]

/-- The instance of C6 at the first parameter of an envelope, the token 4000000000. -/
theorem C6_witness :
    (isDecimalUInt32 "4000000000" = true →
      Except.ok ((ApiRequest.mk ["4000000000", "-7"] 1 "m" "s" Method.METHOD_GET).getTokenParam 0 (by decide)) =
        tokenParamSpec "4000000000") ∧
    (isDecimalInt "4000000000" = true →
      MIN_INT_VALUE ≤ signedValue "4000000000" →
      signedValue "4000000000" ≤ MAX_INT_VALUE →
      Except.ok ((ApiRequest.mk ["4000000000", "-7"] 1 "m" "s" Method.METHOD_GET).getRangeParam 0 (by decide)) =
        rangeParamSpec "4000000000") ∧
    (ApiRequest.mk ["4000000000", "-7"] 1 "m" "s" Method.METHOD_GET).getStringParam 0 (by decide) = "4000000000" ∧
    (ApiRequest.mk ["4000000000", "-7"] 1 "m" "s" Method.METHOD_GET).getTokenParam 0 (by decide) =
      Util.toUInt32 "4000000000" ∧
    (ApiRequest.mk ["4000000000", "-7"] 1 "m" "s" Method.METHOD_GET).getRangeParam 0 (by decide) =
      Util.toInt "4000000000" :=
  C6_param_accessors (ApiRequest.mk ["4000000000", "-7"] 1 "m" "s" Method.METHOD_GET) 0 (by decide)

/-- C6 as first stated fails at the token abc: the spec's accessors fail with InvalidToken
and InvalidRange there, getTokenParam and getRangeParam both return 0. -/
theorem C6_counterexample :
    tokenParamSpec "abc" = Except.error ParamError.InvalidToken ∧
    (ApiRequest.mk ["abc"] 1 "module" "section" Method.METHOD_GET).getTokenParam 0 (by decide) = 0 ∧
    rangeParamSpec "abc" = Except.error ParamError.InvalidRange ∧
    (ApiRequest.mk ["abc"] 1 "module" "section" Method.METHOD_GET).getRangeParam 0 (by decide) = 0 :=
  ⟨rfl, by decide, rfl, by decide⟩


/-! ### Setting items -/

theorem toInt32_of_fits (v : Int) (h0 : MIN_INT_VALUE ≤ v) (h1 : v ≤ MAX_INT_VALUE) :
    (Json.number_integer v).toInt32 = v :=
  wrapInt32_of_fits v h0 h1

/-- The range check of a server-declared number item on a value that fits an `int`. -/
theorem ServerSettingItem.setCurValue_fitting (item : ServerSettingItem)
    (hdef : item.defaultValue.is_number = true) (v : Int)
    (h0 : MIN_INT_VALUE ≤ v) (h1 : v ≤ MAX_INT_VALUE) :
    ((v < item.getMinMax.min ∨ v > item.getMinMax.max) →
      item.setCurValue (Json.number_integer v) = Except.error ⟨item.name, JsonUtil.ErrorType.ERROR_INVALID⟩) ∧
    ((item.getMinMax.min ≤ v ∧ v ≤ item.getMinMax.max) →
      item.setCurValue (Json.number_integer v) = Except.ok (true, { item with value := Json.number_integer v })) := by
  have hconv := toInt32_of_fits v h0 h1
  have hnum : (Json.number_integer v).is_number = true := rfl
  have hnull : (Json.number_integer v).is_null = false := rfl
  have hens : JsonUtil.ensureType item.name (Json.number_integer v) item.defaultValue = Except.ok () := by
    unfold JsonUtil.ensureType
    rw [if_pos hdef, hnum]
    rfl
  constructor
  · intro h
    have hr : (v < item.getMinMax.min || v > item.getMinMax.max) = true := by
      rcases h with h | h <;> simp [h]
    simp [ServerSettingItem.setCurValue, hnull, hens, hnum, hconv, JsonUtil.validateRange, hr]
  · intro h
    have hr : ¬ (v < item.getMinMax.min ∨ v > item.getMinMax.max) := by omega
    simp [ServerSettingItem.setCurValue, hnull, hens, hnum, hconv, JsonUtil.validateRange, hr]

/-- C7, the code at the failing input: a number item with the range [0,100] and the default 5
accepts the integer 4294967296, which is above the maximum, and stores it. -/
theorem C7_failing_input :
    (4294967296 : Int) > (ServerSettingItem.construct "limit" "Limit" (Json.number_integer 5)
        SettingType.TYPE_NUMBER false { min := 0, max := 100 }).getMinMax.max ∧
    (ServerSettingItem.construct "limit" "Limit" (Json.number_integer 5) SettingType.TYPE_NUMBER false
        { min := 0, max := 100 }).setCurValue (Json.number_integer 4294967296) =
      Except.ok (true,
        { name := "limit", type := SettingType.TYPE_NUMBER, desc := "Limit", defaultValue := Json.number_integer 5,
          value := Json.number_integer 4294967296, optional := false, minMax := { min := 0, max := 100 } }) :=
  ⟨by decide, rfl⟩

/-- C8, as amended: for an engine setting of type number and a value v that fits an int,
setCurValue(v) fails with a validation error, writing nothing, exactly when the key has an
entry in the static range table and v lies outside that entry (which is then what getMinMax
returns); in every other case, a key without an entry included, it succeeds and the value
written to the settings store under the key is exactly v. -/
theorem C8_core_number_range (item : CoreSettingItem) (e : Engine) (v : Int)
    (htype : item.type = SettingType.TYPE_NUMBER)
    (h0 : MIN_INT_VALUE ≤ v) (h1 : v ≤ MAX_INT_VALUE) :
    item.setCurValue e (Json.number_integer v) =
      (if (minMaxMappings item.key).isSome = true ∧ (v < item.getMinMax.min ∨ v > item.getMinMax.max) then
        Except.error ⟨item.name, JsonUtil.ErrorType.ERROR_INVALID⟩
      else Except.ok (true, e.settings.setInt item.key v)) ∧
    (e.settings.setInt item.key v).intSettings item.key = v := by
  have hconv := toInt32_of_fits v h0 h1
  have hs : isString SettingType.TYPE_NUMBER = false := by decide
  have hnum : (Json.number_integer v).is_number = true := rfl
  refine ⟨?_, by simp [SettingsManager.setInt]⟩
  cases hmm : minMaxMappings item.key with
  | none =>
    simp [CoreSettingItem.setCurValue, htype, hs, JsonUtil.parseValueInt, hnum, hconv, hmm]
  | some mm =>
    have hget : item.getMinMax = mm := by simp [CoreSettingItem.getMinMax, hmm]
    by_cases hr : v < mm.min ∨ v > mm.max
    · have hr2 : (v < mm.min || v > mm.max) = true := by
        rcases hr with h | h <;> simp [h]
      simp [CoreSettingItem.setCurValue, htype, hs, JsonUtil.parseValueInt, hnum, hconv, hmm,
        JsonUtil.validateRange, hr2, hget, hr]
    · have hr2 : (v < mm.min || v > mm.max) = false := by
        simp only [not_or, not_lt, gt_iff_lt] at hr
        simp [hr.1, hr.2]
      simp [CoreSettingItem.setCurValue, htype, hs, JsonUtil.parseValueInt, hnum, hconv, hmm,
        JsonUtil.validateRange, hr2, hget, hr]

/-- The instance of C8 at the port setting and the value 65536, one above the table's maximum. -/
theorem C8_witness :
    (CoreSettingItem.mk "tcp_port" SettingType.TYPE_NUMBER SettingKey.TCP_PORT
        (ResourceManager.Strings.text 0) ResourceManager.Strings.LAST).setCurValue
        (exampleEngine 3 false) (Json.number_integer 65536) =
      Except.error ⟨"tcp_port", JsonUtil.ErrorType.ERROR_INVALID⟩ ∧
    ((exampleEngine 3 false).settings.setInt SettingKey.TCP_PORT 65536).intSettings SettingKey.TCP_PORT = 65536 :=
  ⟨(C8_core_number_range (CoreSettingItem.mk "tcp_port" SettingType.TYPE_NUMBER SettingKey.TCP_PORT
        (ResourceManager.Strings.text 0) ResourceManager.Strings.LAST)
      (exampleEngine 3 false) 65536 rfl (by decide) (by decide)).1.trans rfl,
   (C8_core_number_range (CoreSettingItem.mk "tcp_port" SettingType.TYPE_NUMBER SettingKey.TCP_PORT
        (ResourceManager.Strings.text 0) ResourceManager.Strings.LAST)
      (exampleEngine 3 false) 65536 rfl (by decide) (by decide)).2⟩

/-- C8 as first stated fails at a key without a table entry: getMinMax is (0, INT_MAX), the
value -5 is below the minimum, and setCurValue succeeds and writes -5. -/
theorem C8_counterexample :
    (CoreSettingItem.mk "download_slots" SettingType.TYPE_NUMBER SettingKey.DOWNLOAD_SLOTS
        (ResourceManager.Strings.text 0) ResourceManager.Strings.LAST).getMinMax =
      { min := 0, max := MAX_INT_VALUE } ∧
    ((CoreSettingItem.mk "download_slots" SettingType.TYPE_NUMBER SettingKey.DOWNLOAD_SLOTS
        (ResourceManager.Strings.text 0) ResourceManager.Strings.LAST).setCurValue
        (exampleEngine 3 false) (Json.number_integer (-5))).toOption.map
      (fun p => (p.1, p.2.intSettings SettingKey.DOWNLOAD_SLOTS)) = some (true, -5) := by
  decide

/-- The macro `USE_AUTO` is false for each of the five toggles: a toggle has no entry in
`groupMappings`. -/
theorem USE_AUTO_toggle (e : Engine) (aForceAutoValues : Bool) (g g1 : Group) (k : SettingKey)
    (hk : groupToggle g1 = some k) : USE_AUTO e aForceAutoValues g k = false := by
  cases g1 <;> simp [groupToggle] at hk <;> subst hk <;> simp [USE_AUTO, groupMappings]

/-- A detected value comes only from the first branch of `autoValueToJson`, and that branch
is entered only by an item whose type has the integer value of `GROUP_CONN_GEN`. -/
theorem autoValueToJson_ne_null (item : CoreSettingItem) (e : Engine) (aForceAutoValues : Bool)
    (h : item.autoValueToJson e aForceAutoValues ≠ Json.null) :
    item.type = SettingType.TYPE_FILE_PATH ∧
    (e.SETTING SettingKey.AUTO_DETECT_CONNECTION = true ∨ e.SETTING SettingKey.AUTO_DETECT_CONNECTION6 = true) := by
  simp only [CoreSettingItem.autoValueToJson, USE_AUTO, groupMappings, Option.isSome_none, Bool.false_and,
    Bool.false_or, Bool.false_eq_true, if_false] at h
  by_cases hc : (decide (item.type.toNat = Group.GROUP_CONN_GEN.toNat) &&
      (e.SETTING SettingKey.AUTO_DETECT_CONNECTION || e.SETTING SettingKey.AUTO_DETECT_CONNECTION6)) = true
  · simp only [Bool.and_eq_true, decide_eq_true_eq, Bool.or_eq_true] at hc
    refine ⟨?_, hc.2⟩
    have h3 := hc.1
    cases ht : item.type <;> rw [ht] at h3 <;> simp [SettingType.toNat, Group.toNat] at h3
    
  · rw [if_neg hc] at h
    exact absurd rfl h

/-- C9, the code at the failing input: the download slots setting is in the download-limits
group, the toggle DL_AUTODETECT is on and the detection source gives 7, and valueToJson
returns the stored 3 with isAuto false, with and without forceAutoValues. -/
theorem C9_failing_input :
    groupMappings SettingKey.DOWNLOAD_SLOTS = some Group.GROUP_LIMITS_DL ∧
    (exampleEngine 3 true).SETTING SettingKey.DL_AUTODETECT = true ∧
    (exampleEngine 3 true).getSlots true = 7 ∧
    (CoreSettingItem.mk "download_slots" SettingType.TYPE_NUMBER SettingKey.DOWNLOAD_SLOTS
        (ResourceManager.Strings.text 0) ResourceManager.Strings.LAST).valueToJson
      (exampleEngine 3 true) false = (Json.number_integer 3, false) ∧
    (CoreSettingItem.mk "download_slots" SettingType.TYPE_NUMBER SettingKey.DOWNLOAD_SLOTS
        (ResourceManager.Strings.text 0) ResourceManager.Strings.LAST).valueToJson
      (exampleEngine 3 true) true = (Json.number_integer 3, false) := by
  decide

theorem valueToJson_of_null (item : CoreSettingItem) (e : Engine) (aForceAutoValues : Bool)
    (h : item.autoValueToJson e aForceAutoValues = Json.null) :
    item.valueToJson e aForceAutoValues = (item.storedValue e, false) := by
  unfold CoreSettingItem.valueToJson CoreSettingItem.storedValue
  rw [h]
  cases ht : item.type <;> simp [Json.is_null, isString]

theorem autoValueToJson_toggles_off (item : CoreSettingItem) (e : Engine) (h : togglesOff e) :
    item.autoValueToJson e false = Json.null := by
  obtain ⟨h1, h2, h3, h4, h5⟩ := h
  simp [CoreSettingItem.autoValueToJson, USE_AUTO, h1, h2, h3, h4, h5]

/-- C10: for every engine setting, when the detection yields no value (null), or when
forceAutoValues is false and every auto-detect toggle is off, valueToJson returns the
settings-store value read under the item's type with isAuto false; and when valueToJson
returns isAuto true, its value is the detected value and is not null. -/
theorem C10_stored_fallback (item : CoreSettingItem) (e : Engine) (aForceAutoValues : Bool) :
    (item.autoValueToJson e aForceAutoValues = Json.null →
      item.valueToJson e aForceAutoValues = (item.storedValue e, false)) ∧
    (togglesOff e → item.valueToJson e false = (item.storedValue e, false)) ∧
    ((item.valueToJson e aForceAutoValues).2 = true →
      (item.valueToJson e aForceAutoValues).1 = item.autoValueToJson e aForceAutoValues ∧
      item.autoValueToJson e aForceAutoValues ≠ Json.null) := by
  refine ⟨valueToJson_of_null item e aForceAutoValues,
    fun h => valueToJson_of_null item e false (autoValueToJson_toggles_off item e h), fun h => ?_⟩
  by_cases hn : item.autoValueToJson e aForceAutoValues = Json.null
  · rw [valueToJson_of_null item e aForceAutoValues hn] at h
    simp at h
  · refine ⟨?_, hn⟩
    have hnn : (item.autoValueToJson e aForceAutoValues).is_null = false := by
      cases hv : item.autoValueToJson e aForceAutoValues <;> simp_all [Json.is_null]
    simp [CoreSettingItem.valueToJson, hnn]

/-- The instance of C10 at the port setting with every toggle off, and at an item that
detects a value. -/
theorem C10_witness :
    ((CoreSettingItem.mk "tcp_port" SettingType.TYPE_NUMBER SettingKey.TCP_PORT
        (ResourceManager.Strings.text 0) ResourceManager.Strings.LAST).valueToJson
        (exampleEngine 3 false) false = (Json.number_integer 3, false)) ∧
    ((CoreSettingItem.mk "tcp_port" SettingType.TYPE_NUMBER SettingKey.TCP_PORT
        (ResourceManager.Strings.text 0) ResourceManager.Strings.LAST).valueToJson
        (exampleEngine 3 false) false =
      ((CoreSettingItem.mk "tcp_port" SettingType.TYPE_NUMBER SettingKey.TCP_PORT
        (ResourceManager.Strings.text 0) ResourceManager.Strings.LAST).storedValue
        (exampleEngine 3 false), false)) ∧
    ((CoreSettingItem.mk "bind" SettingType.TYPE_FILE_PATH SettingKey.TCP_PORT
        (ResourceManager.Strings.text 0) ResourceManager.Strings.LAST).valueToJson
        (exampleEngine 3 true) false).1 = Json.string "21248" :=
  ⟨(C10_stored_fallback (CoreSettingItem.mk "tcp_port" SettingType.TYPE_NUMBER SettingKey.TCP_PORT
        (ResourceManager.Strings.text 0) ResourceManager.Strings.LAST)
      (exampleEngine 3 false) false).1 (by decide),
   (C10_stored_fallback (CoreSettingItem.mk "tcp_port" SettingType.TYPE_NUMBER SettingKey.TCP_PORT
        (ResourceManager.Strings.text 0) ResourceManager.Strings.LAST)
      (exampleEngine 3 false) false).2.1 ⟨rfl, rfl, rfl, rfl, rfl⟩,
   ((C10_stored_fallback (CoreSettingItem.mk "bind" SettingType.TYPE_FILE_PATH SettingKey.TCP_PORT
        (ResourceManager.Strings.text 0) ResourceManager.Strings.LAST)
      (exampleEngine 3 true) false).2.2 (by decide)).1⟩

/-! ### Documents of setting items -/

theorem Document.find_set (d : Document) (k : String) (v : DocValue) (k1 : String) :
    (d.set k v).find k1 = if k = k1 then some v else d.find k1 := by
  induction d with
  | nil => simp [Document.set, Document.find]
  | cons p rest ih =>
    obtain ⟨k0, v0⟩ := p
    by_cases h0 : k0 = k
    · subst h0
      by_cases h1 : k0 = k1 <;> simp [Document.set, Document.find, h1]
    · by_cases h1 : k0 = k1
      · subst h1
        have h2 : ¬ k = k0 := fun h => h0 h.symm
        simp [Document.set, Document.find, h0, h2]
      · simp [Document.set, Document.find, h0, h1, ih]

theorem Document.find_push_back (d : Document) (key : String) (obj : List (String × Json)) (k1 : String)
    (h : key ≠ k1) : (d.push_back key obj).find k1 = d.find k1 := by
  unfold Document.push_back
  split <;> simp [Document.find_set, h]

theorem Document.find_foldl_push_back {α : Type} (l : List α) (f : α → List (String × Json))
    (d : Document) (key k1 : String) (h : key ≠ k1) :
    (l.foldl (fun r x => r.push_back key (f x)) d).find k1 = d.find k1 := by
  induction l generalizing d with
  | nil => rfl
  | cons x rest ih => simp only [List.foldl_cons]; rw [ih, Document.find_push_back _ _ _ _ h]

theorem ApiSettingItem.infoToJson_auto (title : String) (value : Json × Bool) (type : SettingType)
    (minMax : MinMax) (isOptional : Bool) :
    (ApiSettingItem.infoToJson title value type minMax isOptional).find "auto" =
      if value.2 = true then some (DocValue.value (Json.boolean true)) else none := by
  unfold ApiSettingItem.infoToJson
  by_cases hv : value.2 = true <;> by_cases ht : type = SettingType.TYPE_NUMBER <;>
    by_cases h0 : minMax.min = 0 <;> by_cases h1 : minMax.max = MAX_INT_VALUE <;>
    by_cases ho : isOptional = true <;>
    simp [hv, ht, h0, h1, ho, Document.find_set, Document.find]

theorem ApiSettingItem.infoToJson_min (title : String) (value : Json × Bool) (type : SettingType)
    (minMax : MinMax) (isOptional : Bool) :
    (ApiSettingItem.infoToJson title value type minMax isOptional).find "min" =
      if type = SettingType.TYPE_NUMBER ∧ minMax.min ≠ 0 then
        some (DocValue.value (Json.number_integer minMax.min))
      else none := by
  unfold ApiSettingItem.infoToJson
  by_cases hv : value.2 = true <;> by_cases ht : type = SettingType.TYPE_NUMBER <;>
    by_cases h0 : minMax.min = 0 <;> by_cases h1 : minMax.max = MAX_INT_VALUE <;>
    by_cases ho : isOptional = true <;>
    simp [hv, ht, h0, h1, ho, Document.find_set, Document.find]

theorem ApiSettingItem.infoToJson_max (title : String) (value : Json × Bool) (type : SettingType)
    (minMax : MinMax) (isOptional : Bool) :
    (ApiSettingItem.infoToJson title value type minMax isOptional).find "max" =
      if type = SettingType.TYPE_NUMBER ∧ minMax.max ≠ MAX_INT_VALUE then
        some (DocValue.value (Json.number_integer minMax.max))
      else none := by
  unfold ApiSettingItem.infoToJson
  by_cases hv : value.2 = true <;> by_cases ht : type = SettingType.TYPE_NUMBER <;>
    by_cases h0 : minMax.min = 0 <;> by_cases h1 : minMax.max = MAX_INT_VALUE <;>
    by_cases ho : isOptional = true <;>
    simp [hv, ht, h0, h1, ho, Document.find_set, Document.find]

/-- The keys `CoreSettingItem::infoToJson` adds are "unit" and "values": every other key holds
what the base method gave it. -/
theorem CoreSettingItem.infoToJson_find (item : CoreSettingItem) (e : Engine) (aForceAutoValues : Bool)
    (k : String) (hu : "unit" ≠ k) (hv : "values" ≠ k) :
    (item.infoToJson e aForceAutoValues).find k =
      (ApiSettingItem.infoToJson (item.getTitle e) (item.valueToJson e aForceAutoValues) item.type
        item.getMinMax item.isOptional).find k := by
  unfold CoreSettingItem.infoToJson
  simp only []
  have hunit : ∀ d : Document, (if item.unit ≠ ResourceManager.Strings.LAST then
      d.set "unit" (DocValue.value (Json.string (e.getString item.unit))) else d).find k = d.find k := by
    intro d
    split
    · simp [Document.find_set, hu]
    · rfl
  split
  · rw [Document.find_foldl_push_back _ _ _ _ _ hv, hunit]
  · split
    · rw [Document.find_foldl_push_back _ _ _ _ _ hv, hunit]
    · split
      · rw [Document.find_foldl_push_back _ _ _ _ _ hv, hunit]
      · rw [hunit]

/-! ### Effective values, writes and declarations -/

/-- An item whose type is not `TYPE_FILE_PATH` never gets an auto detected value. -/
theorem valueToJson_not_auto (item : CoreSettingItem) (e : Engine) (aForceAutoValues : Bool)
    (ht : item.type ≠ SettingType.TYPE_FILE_PATH) :
    item.valueToJson e aForceAutoValues = (item.storedValue e, false) := by
  apply valueToJson_of_null
  by_contra h
  exact ht (autoValueToJson_ne_null item e aForceAutoValues h).1

/-- C11, the code at the failing input: the port setting is in the connectivity-general group,
both connectivity toggles are on and the connection manager reports the port 21248, and
valueToJson returns the stored 3 with isAuto false. -/
theorem C11_failing_input :
    groupMappings SettingKey.TCP_PORT = some Group.GROUP_CONN_GEN ∧
    (exampleEngine 3 true).SETTING SettingKey.AUTO_DETECT_CONNECTION = true ∧
    (exampleEngine 3 true).SETTING SettingKey.AUTO_DETECT_CONNECTION6 = true ∧
    (exampleEngine 3 true).connectionPort = "21248" ∧
    (CoreSettingItem.mk "tcp_port" SettingType.TYPE_NUMBER SettingKey.TCP_PORT
        (ResourceManager.Strings.text 0) ResourceManager.Strings.LAST).valueToJson
      (exampleEngine 3 true) false = (Json.number_integer 3, false) := by
  decide

theorem Json.equals_self (j : Json) : j.equals j = true := by
  cases j <;> simp [Json.equals]

theorem ServerSettingItem.setCurValue_defaultValue (item item1 : ServerSettingItem) (v : Json) (b : Bool)
    (h : item.setCurValue v = Except.ok (b, item1)) : item1.defaultValue = item.defaultValue := by
  unfold ServerSettingItem.setCurValue at h
  split at h
  · simp only [Except.ok.injEq, Prod.mk.injEq] at h
    rw [← h.2]; rfl
  · split at h
    · exact absurd h (by simp)
    · split at h
      · split at h
        · exact absurd h (by simp)
        · simp only [Except.ok.injEq, Prod.mk.injEq] at h
          rw [← h.2]
      · simp only [Except.ok.injEq, Prod.mk.injEq] at h
        rw [← h.2]

/-- C12: for every server-declared item and every value v that setCurValue accepts, after
setCurValue(v) and then unset(), valueToJson returns (defaultValue, false) and isDefault()
is true, defaultValue being the default the item had before the calls. -/
theorem C12_set_then_unset (item item1 : ServerSettingItem) (v : Json) (b : Bool)
    (aForceAutoValues : Bool) (h : item.setCurValue v = Except.ok (b, item1)) :
    item1.unset.valueToJson aForceAutoValues = (item.defaultValue, false) ∧
    item1.unset.isDefault = true := by
  have hd := ServerSettingItem.setCurValue_defaultValue item item1 v b h
  constructor
  · simp [ServerSettingItem.valueToJson, ServerSettingItem.unset, hd]
  · simp [ServerSettingItem.isDefault, ServerSettingItem.unset, Json.equals_self]

/-- The instance of C12 at a number item with the default 5 and the range [0,100], set to 42. -/
theorem C12_witness :
    (ServerSettingItem.mk "limit" SettingType.TYPE_NUMBER "Limit" (Json.number_integer 5)
        (Json.number_integer 42) false { min := 0, max := 100 }).unset.valueToJson false =
      (Json.number_integer 5, false) ∧
    (ServerSettingItem.mk "limit" SettingType.TYPE_NUMBER "Limit" (Json.number_integer 5)
        (Json.number_integer 42) false { min := 0, max := 100 }).unset.isDefault = true :=
  C12_set_then_unset
    (ServerSettingItem.construct "limit" "Limit" (Json.number_integer 5) SettingType.TYPE_NUMBER false
      { min := 0, max := 100 })
    (ServerSettingItem.mk "limit" SettingType.TYPE_NUMBER "Limit" (Json.number_integer 5)
      (Json.number_integer 42) false { min := 0, max := 100 })
    (Json.number_integer 42) true false rfl

/-- C13, as amended: a non-null value v whose shape does not match the declared type makes
setCurValue fail with a validation error, nothing being stored, for every engine setting of
one of the six types, and for every server-declared item whose default value has the shape
of the declared type; a server-declared item compares v with the JSON type of its default
value, not with its declared type. -/
theorem C13_shape_mismatch (core : CoreSettingItem) (e : Engine) (item : ServerSettingItem) (v : Json)
    (hv : v.is_null = false) :
    (core.type ≠ SettingType.TYPE_LAST → shapeMatches core.type v = false →
      core.setCurValue e v = Except.error ⟨core.name, JsonUtil.ErrorType.ERROR_INVALID⟩) ∧
    (shapeMatches item.type item.defaultValue = true → shapeMatches item.type v = false →
      item.setCurValue v = Except.error ⟨item.name, JsonUtil.ErrorType.ERROR_INVALID⟩) ∧
    (item.defaultValue.is_number = false → v.type ≠ item.defaultValue.type →
      item.setCurValue v = Except.error ⟨item.name, JsonUtil.ErrorType.ERROR_INVALID⟩) ∧
    (item.defaultValue.is_number = true → v.is_number = false →
      item.setCurValue v = Except.error ⟨item.name, JsonUtil.ErrorType.ERROR_INVALID⟩) := by
  refine ⟨fun ht hs => ?_, fun hd hs => ?_, fun hd hs => ?_, fun hd hs => ?_⟩
  · cases hty : core.type <;> rw [hty] at hs ht <;>
      cases v <;>
      simp_all [shapeMatches, Json.type, Json.is_number, CoreSettingItem.setCurValue, isString,
        JsonUtil.parseValueString, JsonUtil.parseValueInt, JsonUtil.parseValueBool]
  · cases hty : item.type <;> rw [hty] at hs hd <;>
      cases v <;> cases hdv : item.defaultValue <;> rw [hdv] at hd <;>
      simp_all [shapeMatches, Json.type, Json.is_number, Json.is_null, ServerSettingItem.setCurValue,
        JsonUtil.ensureType]
  · cases v <;> cases hdv : item.defaultValue <;> rw [hdv] at hd hs <;>
      simp_all [Json.type, Json.is_number, Json.is_null, ServerSettingItem.setCurValue,
        JsonUtil.ensureType]
  · cases v <;> cases hdv : item.defaultValue <;> rw [hdv] at hd <;>
      simp_all [Json.type, Json.is_number, Json.is_null, ServerSettingItem.setCurValue,
        JsonUtil.ensureType]

/-- The instance of C13 at the port setting, a boolean server item with the default false
and the value "yes". -/
theorem C13_witness :
    (CoreSettingItem.mk "tcp_port" SettingType.TYPE_NUMBER SettingKey.TCP_PORT
        (ResourceManager.Strings.text 0) ResourceManager.Strings.LAST).setCurValue
      (exampleEngine 3 false) (Json.string "yes") =
        Except.error ⟨"tcp_port", JsonUtil.ErrorType.ERROR_INVALID⟩ ∧
    (ServerSettingItem.construct "debug" "Debug" (Json.boolean false) SettingType.TYPE_BOOLEAN false
        defaultMinMax).setCurValue (Json.string "yes") =
      Except.error ⟨"debug", JsonUtil.ErrorType.ERROR_INVALID⟩ :=
  ⟨(C13_shape_mismatch
      (CoreSettingItem.mk "tcp_port" SettingType.TYPE_NUMBER SettingKey.TCP_PORT
        (ResourceManager.Strings.text 0) ResourceManager.Strings.LAST)
      (exampleEngine 3 false)
      (ServerSettingItem.construct "debug" "Debug" (Json.boolean false) SettingType.TYPE_BOOLEAN false
        defaultMinMax)
      (Json.string "yes") rfl).1 (by decide) (by decide),
   (C13_shape_mismatch
      (CoreSettingItem.mk "tcp_port" SettingType.TYPE_NUMBER SettingKey.TCP_PORT
        (ResourceManager.Strings.text 0) ResourceManager.Strings.LAST)
      (exampleEngine 3 false)
      (ServerSettingItem.construct "debug" "Debug" (Json.boolean false) SettingType.TYPE_BOOLEAN false
        defaultMinMax)
      (Json.string "yes") rfl).2.1 (by decide) (by decide)⟩

/-- C13 as first stated fails at a declaration of type number whose default value is the
string "abc": fromJson accepts it, and setCurValue of the string "xyz", which is not a
JSON number, succeeds and stores "xyz". -/
theorem C13_counterexample :
    (ServerSettingItem.fromJson
        { key := some (Json.string "limit"), title := some (Json.string "Limit"),
          type := some (Json.string "number"), optional := none,
          defaultValue := some (Json.string "abc"), min := none, max := none }).toOption =
      some (ServerSettingItem.construct "limit" "Limit" (Json.string "abc") SettingType.TYPE_NUMBER false
        defaultMinMax) ∧
    shapeMatches SettingType.TYPE_NUMBER (Json.string "xyz") = false ∧
    ((ServerSettingItem.construct "limit" "Limit" (Json.string "abc") SettingType.TYPE_NUMBER false
        defaultMinMax).setCurValue (Json.string "xyz")).toOption.map (fun p => (p.1, p.2.value)) =
      some (true, Json.string "xyz") := by
  decide

/-- C14: for every server-declared item in any state, setCurValue(null) returns true without a
validation error and leaves the item exactly as unset() does, the stored value being the
declared default. -/
theorem C14_set_null (item : ServerSettingItem) :
    item.setCurValue Json.null = Except.ok (true, item.unset) ∧
    item.unset.value = item.defaultValue :=
  ⟨rfl, rfl⟩

/-- C15: for every server-declared item and both values of forceAutoValues, valueToJson
returns the stored value with isAuto false, and the document of infoToJson has no key
"auto". -/
theorem C15_server_never_auto (item : ServerSettingItem) (aForceAutoValues : Bool) :
    item.valueToJson aForceAutoValues = (item.value, false) ∧
    (item.infoToJson aForceAutoValues).containsKey "auto" = false := by
  refine ⟨rfl, ?_⟩
  simp [Document.containsKey, ServerSettingItem.infoToJson, ApiSettingItem.infoToJson_auto,
    ServerSettingItem.valueToJson]

/-- C16: for a server-declared item and for an engine setting, and every forceAutoValues, the
document of infoToJson holds true under "auto" if and only if valueToJson in the same state
returns isAuto true, and has no key "auto" when isAuto is false. -/
theorem C16_auto_key (item : ServerSettingItem) (core : CoreSettingItem) (e : Engine)
    (aForceAutoValues : Bool) :
    ((item.infoToJson aForceAutoValues).find "auto" = some (DocValue.value (Json.boolean true)) ↔
      (item.valueToJson aForceAutoValues).2 = true) ∧
    ((item.valueToJson aForceAutoValues).2 = false →
      (item.infoToJson aForceAutoValues).containsKey "auto" = false) ∧
    ((core.infoToJson e aForceAutoValues).find "auto" = some (DocValue.value (Json.boolean true)) ↔
      (core.valueToJson e aForceAutoValues).2 = true) ∧
    ((core.valueToJson e aForceAutoValues).2 = false →
      (core.infoToJson e aForceAutoValues).containsKey "auto" = false) := by
  have hc := CoreSettingItem.infoToJson_find core e aForceAutoValues "auto" (by decide) (by decide)
  rw [ApiSettingItem.infoToJson_auto] at hc
  have hs : (item.infoToJson aForceAutoValues).find "auto" =
      if (item.valueToJson aForceAutoValues).2 = true then some (DocValue.value (Json.boolean true))
      else none := ApiSettingItem.infoToJson_auto _ _ _ _ _
  refine ⟨?_, ?_, ?_, ?_⟩
  · rw [hs]; by_cases h : (item.valueToJson aForceAutoValues).2 = true <;> simp [h]
  · intro h; simp [Document.containsKey, hs, h]
  · rw [hc]; by_cases h : (core.valueToJson e aForceAutoValues).2 = true <;> simp [h]
  · intro h; simp [Document.containsKey, hc, h]

/-- The instance of C16 at a server item and at an item that detects a value. -/
theorem C16_witness :
    ((ServerSettingItem.construct "debug" "Debug" (Json.boolean false) SettingType.TYPE_BOOLEAN false
        defaultMinMax).infoToJson false).containsKey "auto" = false ∧
    ((CoreSettingItem.mk "bind" SettingType.TYPE_FILE_PATH SettingKey.TCP_PORT
        (ResourceManager.Strings.text 0) ResourceManager.Strings.LAST).infoToJson
      (exampleEngine 3 true) false).find "auto" = some (DocValue.value (Json.boolean true)) :=
  ⟨(C16_auto_key
      (ServerSettingItem.construct "debug" "Debug" (Json.boolean false) SettingType.TYPE_BOOLEAN false
        defaultMinMax)
      (CoreSettingItem.mk "bind" SettingType.TYPE_FILE_PATH SettingKey.TCP_PORT
        (ResourceManager.Strings.text 0) ResourceManager.Strings.LAST)
      (exampleEngine 3 true) false).2.1 rfl,
   (C16_auto_key
      (ServerSettingItem.construct "debug" "Debug" (Json.boolean false) SettingType.TYPE_BOOLEAN false
        defaultMinMax)
      (CoreSettingItem.mk "bind" SettingType.TYPE_FILE_PATH SettingKey.TCP_PORT
        (ResourceManager.Strings.text 0) ResourceManager.Strings.LAST)
      (exampleEngine 3 true) false).2.2.1.mpr (by decide)⟩

/-- C17: for a server-declared item and for an engine setting with the range (min,max) that
getMinMax returns, the document of infoToJson holds min under "min" when the type is number
and min is not 0 and has no key "min" otherwise, and holds max under "max" when the type is
number and max is not INT_MAX and has no key "max" otherwise; so an item of a type other
than number has neither key, whatever its range. -/
theorem C17_min_max_keys (item : ServerSettingItem) (core : CoreSettingItem) (e : Engine)
    (aForceAutoValues : Bool) :
    (item.infoToJson aForceAutoValues).find "min" =
      (if item.type = SettingType.TYPE_NUMBER ∧ item.getMinMax.min ≠ 0 then
        some (DocValue.value (Json.number_integer item.getMinMax.min)) else none) ∧
    (item.infoToJson aForceAutoValues).find "max" =
      (if item.type = SettingType.TYPE_NUMBER ∧ item.getMinMax.max ≠ MAX_INT_VALUE then
        some (DocValue.value (Json.number_integer item.getMinMax.max)) else none) ∧
    (core.infoToJson e aForceAutoValues).find "min" =
      (if core.type = SettingType.TYPE_NUMBER ∧ core.getMinMax.min ≠ 0 then
        some (DocValue.value (Json.number_integer core.getMinMax.min)) else none) ∧
    (core.infoToJson e aForceAutoValues).find "max" =
      (if core.type = SettingType.TYPE_NUMBER ∧ core.getMinMax.max ≠ MAX_INT_VALUE then
        some (DocValue.value (Json.number_integer core.getMinMax.max)) else none) := by
  refine ⟨ApiSettingItem.infoToJson_min _ _ _ _ _, ApiSettingItem.infoToJson_max _ _ _ _ _, ?_, ?_⟩
  · rw [CoreSettingItem.infoToJson_find core e aForceAutoValues "min" (by decide) (by decide)]
    exact ApiSettingItem.infoToJson_min _ _ _ _ _
  · rw [CoreSettingItem.infoToJson_find core e aForceAutoValues "max" (by decide) (by decide)]
    exact ApiSettingItem.infoToJson_max _ _ _ _ _

theorem JsonUtil.parseValueString_field (n : String) (j : Json) (err : ArgumentException)
    (h : JsonUtil.parseValueString n j = Except.error err) : err.field = n := by
  cases j <;> simp [JsonUtil.parseValueString] at h <;> rw [← h]

theorem JsonUtil.parseValueBool_field (n : String) (j : Json) (err : ArgumentException)
    (h : JsonUtil.parseValueBool n j = Except.error err) : err.field = n := by
  cases j <;> simp [JsonUtil.parseValueBool] at h <;> rw [← h]

theorem JsonUtil.parseValueInt_field (n : String) (j : Json) (err : ArgumentException)
    (h : JsonUtil.parseValueInt n j = Except.error err) : err.field = n := by
  cases j <;> simp [JsonUtil.parseValueInt, Json.is_number] at h <;> rw [← h]

theorem JsonUtil.getFieldString_field (n : String) (f : Option Json) (err : ArgumentException)
    (h : JsonUtil.getFieldString n f = Except.error err) : err.field = n := by
  unfold JsonUtil.getFieldString at h
  split at h
  · simp at h; rw [← h]
  · split at h
    · rename_i e1 he; simp at h; rw [← h]; exact JsonUtil.parseValueString_field _ _ _ he
    · split at h
      · simp at h; rw [← h]
      · simp at h

theorem JsonUtil.getOptionalFieldDefaultBool_field (n : String) (f : Option Json) (b : Bool)
    (err : ArgumentException) (h : JsonUtil.getOptionalFieldDefaultBool n f b = Except.error err) :
    err.field = n := by
  unfold JsonUtil.getOptionalFieldDefaultBool at h
  split at h
  · simp at h
  · simp at h
  · exact JsonUtil.parseValueBool_field _ _ _ h

theorem JsonUtil.getOptionalFieldDefaultInt_field (n : String) (f : Option Json) (b : Int)
    (err : ArgumentException) (h : JsonUtil.getOptionalFieldDefaultInt n f b = Except.error err) :
    err.field = n := by
  unfold JsonUtil.getOptionalFieldDefaultInt at h
  split at h
  · simp at h
  · simp at h
  · exact JsonUtil.parseValueInt_field _ _ _ h

theorem JsonUtil.getOptionalRawField_field (n : String) (f : Option Json) (b : Bool)
    (err : ArgumentException) (h : JsonUtil.getOptionalRawField n f b = Except.error err) :
    err.field = n := by
  unfold JsonUtil.getOptionalRawField at h
  split at h
  · simp at h
  · split at h
    · simp at h; rw [← h]
    · simp at h

/-- C18, as amended: for every declaration with a valid key and title whose type is "boolean"
or "number" and whose optional field is true, fromJson fails with a validation error on the
field "optional" and constructs no item; and for every declaration whose optional field is
absent or false, or is true with a string-like type, fromJson never fails on the field
"optional". -/
theorem C18_optional_check (d : Declaration) (key title ts : String) (err : ArgumentException) :
    (d.key = some (Json.string key) → key ≠ "" → d.title = some (Json.string title) → title ≠ "" →
      (d.type = some (Json.string "boolean") ∨ d.type = some (Json.string "number")) →
      d.optional = some (Json.boolean true) →
      ServerSettingItem.fromJson d = Except.error ⟨"optional", JsonUtil.ErrorType.ERROR_INVALID⟩) ∧
    ((d.optional = none ∨ d.optional = some (Json.boolean false) ∨
        (d.optional = some (Json.boolean true) ∧ d.type = some (Json.string ts) ∧
          isString (deserializeType ts) = true)) →
      ServerSettingItem.fromJson d = Except.error err → err.field ≠ "optional") := by
  constructor
  · intro hk hk0 ht ht0 hty ho
    have h1 : JsonUtil.getFieldString "key" d.key = Except.ok key := by
      simp [JsonUtil.getFieldString, JsonUtil.parseValueString, hk, hk0]
    have h2 : JsonUtil.getFieldString "title" d.title = Except.ok title := by
      simp [JsonUtil.getFieldString, JsonUtil.parseValueString, ht, ht0]
    have h4 : JsonUtil.getOptionalFieldDefaultBool "optional" d.optional false = Except.ok true := by
      simp [JsonUtil.getOptionalFieldDefaultBool, JsonUtil.parseValueBool, ho]
    rcases hty with hty | hty
    · have h3 : JsonUtil.getFieldString "type" d.type = Except.ok "boolean" := by
        simp [JsonUtil.getFieldString, JsonUtil.parseValueString, hty]
      simp [ServerSettingItem.fromJson, h1, h2, h3, h4, deserializeType]
    · have h3 : JsonUtil.getFieldString "type" d.type = Except.ok "number" := by
        simp [JsonUtil.getFieldString, JsonUtil.parseValueString, hty]
      simp [ServerSettingItem.fromJson, h1, h2, h3, h4, deserializeType]
  · intro hcase hfail
    have hopt : ∃ b, JsonUtil.getOptionalFieldDefaultBool "optional" d.optional false = Except.ok b ∧
        (b = true → d.type = some (Json.string ts) ∧ isString (deserializeType ts) = true) := by
      rcases hcase with h | h | ⟨h, h5, h6⟩
      · exact ⟨false, by simp [JsonUtil.getOptionalFieldDefaultBool, h], by simp⟩
      · exact ⟨false, by simp [JsonUtil.getOptionalFieldDefaultBool, JsonUtil.parseValueBool, h], by simp⟩
      · exact ⟨true, by simp [JsonUtil.getOptionalFieldDefaultBool, JsonUtil.parseValueBool, h],
          fun _ => ⟨h5, h6⟩⟩
    obtain ⟨b, hb, hbt⟩ := hopt
    unfold ServerSettingItem.fromJson at hfail
    split at hfail
    · rename_i e1 he
      simp only [Except.error.injEq] at hfail
      rw [← hfail, JsonUtil.getFieldString_field _ _ _ he]; decide
    · split at hfail
      · rename_i e1 he
        simp only [Except.error.injEq] at hfail
        rw [← hfail, JsonUtil.getFieldString_field _ _ _ he]; decide
      · split at hfail
        · rename_i e1 he
          simp only [Except.error.injEq] at hfail
          rw [← hfail, JsonUtil.getFieldString_field _ _ _ he]; decide
        · rename_i typeStr htype
          simp only [] at hfail
          split at hfail
          · simp only [Except.error.injEq] at hfail
            rw [← hfail]; decide
          · rw [hb] at hfail
            simp only [] at hfail
            split at hfail
            · rename_i hcheck
              exfalso
              simp only [Bool.and_eq_true, Bool.or_eq_true, decide_eq_true_eq] at hcheck
              obtain ⟨h5, h6⟩ := hbt hcheck.1
              have hts : typeStr = ts := by
                rw [h5] at htype
                unfold JsonUtil.getFieldString at htype
                simp only [JsonUtil.parseValueString] at htype
                split at htype
                · simp at htype
                · simp at htype; exact htype.symm
              rw [hts] at hcheck
              rcases hcheck.2 with h7 | h7 <;> rw [h7] at h6 <;> exact absurd h6 (by decide)
            · split at hfail
              · rename_i e1 he
                simp only [Except.error.injEq] at hfail
                rw [← hfail, JsonUtil.getOptionalRawField_field _ _ _ _ he]; decide
              · split at hfail
                · rename_i e1 he
                  simp only [Except.error.injEq] at hfail
                  rw [← hfail, JsonUtil.getOptionalFieldDefaultInt_field _ _ _ _ he]; decide
                · split at hfail
                  · rename_i e1 he
                    simp only [Except.error.injEq] at hfail
                    rw [← hfail, JsonUtil.getOptionalFieldDefaultInt_field _ _ _ _ he]; decide
                  · simp at hfail

/-- The instance of C18 at a boolean declaration marked optional, and at a declaration
without the optional field that fails for its missing default value. -/
theorem C18_witness :
    ServerSettingItem.fromJson
        { key := some (Json.string "debug"), title := some (Json.string "Debug"),
          type := some (Json.string "boolean"), optional := some (Json.boolean true),
          defaultValue := some (Json.boolean false), min := none, max := none } =
      Except.error ⟨"optional", JsonUtil.ErrorType.ERROR_INVALID⟩ :=
  (C18_optional_check
    { key := some (Json.string "debug"), title := some (Json.string "Debug"),
      type := some (Json.string "boolean"), optional := some (Json.boolean true),
      defaultValue := some (Json.boolean false), min := none, max := none }
    "debug" "Debug" "boolean" ⟨"optional", JsonUtil.ErrorType.ERROR_INVALID⟩).1
    rfl (by decide) rfl (by decide) (Or.inl rfl) rfl

/-- C18 as first stated fails at a boolean declaration marked optional that has no key: the
validation error fromJson throws is on the field "key". -/
theorem C18_counterexample :
    ServerSettingItem.fromJson
        { key := none, title := some (Json.string "Debug"),
          type := some (Json.string "boolean"), optional := some (Json.boolean true),
          defaultValue := some (Json.boolean false), min := none, max := none } =
      Except.error ⟨"key", JsonUtil.ErrorType.ERROR_MISSING⟩ :=
  rfl

/-! ### Search instances -/

theorem run_ids (calls : List SearchApi.Call) (s : SearchApi)
    (h : s.instanceIdCounter + SearchApi.creations calls ≤ TOKEN_MODULUS) :
    (s.run calls).2 = List.range' s.instanceIdCounter (SearchApi.creations calls) := by
  induction calls generalizing s with
  | nil => simp [SearchApi.run, SearchApi.creations]
  | cons c rest ih =>
    cases c with
    | createInstance t =>
      simp only [SearchApi.creations] at h
      simp only [SearchApi.run, SearchApi.creations, SearchApi.createInstance]
      by_cases hn : SearchApi.creations rest = 0
      · rw [ih _ (by simp [hn]; exact Nat.le_of_lt (Nat.mod_lt _ (by decide)))]
        simp [hn, List.range']
      · have hlt : s.instanceIdCounter + 1 < TOKEN_MODULUS := by omega
        rw [ih _ (by simp only [Nat.mod_eq_of_lt hlt]; omega)]
        simp [Nat.mod_eq_of_lt hlt, List.range'_succ]
    | removeSubModule aId =>
      simp only [SearchApi.creations] at h
      simp only [SearchApi.run, SearchApi.creations]
      exact ih _ h
    | onTimer now =>
      simp only [SearchApi.creations] at h
      simp only [SearchApi.run, SearchApi.creations]
      exact ih _ h

/-- C19, as amended: for every sequence of createInstance calls, removals and sweeps that
does not take the 32-bit id counter past its last value, the ids createInstance returns are
the consecutive counter values, strictly increasing in call order, whatever was removed in
between. -/
theorem C19_ids_increasing (s : SearchApi) (calls : List SearchApi.Call)
    (h : s.instanceIdCounter + SearchApi.creations calls ≤ TOKEN_MODULUS) :
    (s.run calls).2 = List.range' s.instanceIdCounter (SearchApi.creations calls) ∧
    List.Pairwise (fun a b => a < b) (s.run calls).2 := by
  have hids := run_ids calls s h
  refine ⟨hids, ?_⟩
  rw [hids]
  exact List.pairwise_lt_range' _ _

/-- The instance of C19 at a module with the counter 5 and the calls create, remove 5,
create, sweep, create. -/
theorem C19_witness :
    ((SearchApi.mk 5 []).run
      [SearchApi.Call.createInstance 0, SearchApi.Call.removeSubModule 5, SearchApi.Call.createInstance 9,
       SearchApi.Call.onTimer 10, SearchApi.Call.createInstance 0]).2 = List.range' 5 3 ∧
    List.Pairwise (fun a b => a < b)
      ((SearchApi.mk 5 []).run
        [SearchApi.Call.createInstance 0, SearchApi.Call.removeSubModule 5, SearchApi.Call.createInstance 9,
         SearchApi.Call.onTimer 10, SearchApi.Call.createInstance 0]).2 :=
  C19_ids_increasing (SearchApi.mk 5 [])
    [SearchApi.Call.createInstance 0, SearchApi.Call.removeSubModule 5, SearchApi.Call.createInstance 9,
     SearchApi.Call.onTimer 10, SearchApi.Call.createInstance 0] (by decide)

/-- The counter after `n` creations from the counter 0 is `n` modulo the token's width: the
counter value 4294967295 is reached. -/
theorem run_creations_counter (n : Nat) (c : Nat) (subs : List SearchEntity) :
    ((SearchApi.mk c subs).run (List.replicate n (SearchApi.Call.createInstance 0))).1.instanceIdCounter =
      if n = 0 then c else (c + n) % TOKEN_MODULUS := by
  induction n generalizing c subs with
  | zero => simp [SearchApi.run]
  | succ n ih =>
    simp only [List.replicate_succ, SearchApi.run, SearchApi.createInstance, ih]
    by_cases hn : n = 0
    · simp [hn]
    · simp only [hn, if_false, Nat.succ_ne_zero, Nat.mod_add_mod]
      congr 1; omega

/-- C19 as first stated fails once the counter is at its last value: two createInstance calls
return 4294967295 and then 0, the id the first instance of the module had. -/
theorem C19_counterexample :
    ((SearchApi.mk 4294967295 []).run
      [SearchApi.Call.createInstance 0, SearchApi.Call.createInstance 0]).2 = [4294967295, 0] := by
  decide

theorem foldl_removeSubModule (ids : List Nat) (subs : List SearchEntity) :
    ids.foldl removeSubModule subs = subs.filter fun m => decide (m.id ∉ ids) := by
  induction ids generalizing subs with
  | nil => simp
  | cons i rest ih =>
    simp only [List.foldl_cons, ih, removeSubModule, List.filter_filter]
    congr 1
    funext m
    by_cases h1 : m.id = i <;> by_cases h2 : m.id ∈ rest <;> simp [h1, h2]

theorem onTimer_subModules (s : SearchApi) (now : Nat) (hwf : s.wellFormed) :
    (s.onTimer now).subModules = s.subModules.filter fun m => !m.expired now := by
  simp only [SearchApi.onTimer, foldl_removeSubModule]
  apply List.filter_congr
  intro m hm
  have hiff : m.id ∈ ((s.subModules.filter fun m => m.expired now).map fun m => m.id) ↔ m.expired now = true := by
    constructor
    · intro h
      obtain ⟨m2, hm2, hid⟩ := List.mem_map.mp h
      have hm2' := List.mem_filter.mp hm2
      have hnd : (s.subModules.map fun m => m.id).Nodup := List.Pairwise.imp (fun h => Nat.ne_of_lt h) hwf
      have heq : m2 = m := List.inj_on_of_nodup_map hnd hm2'.1 hm hid
      rw [← heq]; exact hm2'.2
    · intro h
      exact List.mem_map.mpr ⟨m, List.mem_filter.mpr ⟨hm, h⟩, rfl⟩
  by_cases hx : m.expired now = true
  · simp [hx, hiff.mpr hx]
  · have hn : ¬ m.id ∈ ((s.subModules.filter fun m => m.expired now).map fun m => m.id) := fun h => hx (hiff.mp h)
    simp only [Bool.not_eq_true] at hx
    simp [hx, hn]

theorem addSubModule_ids (subs : List SearchEntity) (m : SearchEntity) (x : Nat)
    (hx : x ∈ (addSubModule subs m).map fun e => e.id) : x = m.id ∨ x ∈ subs.map fun e => e.id := by
  induction subs with
  | nil => simp [addSubModule] at hx; exact Or.inl hx
  | cons y rest ih =>
    unfold addSubModule at hx
    split at hx
    · simp only [List.map_cons, List.mem_cons] at hx ⊢
      rcases hx with h | h | h
      · exact Or.inl h
      · exact Or.inr (Or.inl h)
      · exact Or.inr (Or.inr (by simpa using h))
    · split at hx
      · exact Or.inr hx
      · simp only [List.map_cons, List.mem_cons] at hx ⊢
        rcases hx with h | h
        · exact Or.inr (Or.inl h)
        · rcases ih h with h2 | h2
          · exact Or.inl h2
          · exact Or.inr (Or.inr h2)

theorem addSubModule_sorted (subs : List SearchEntity) (m : SearchEntity)
    (h : List.Pairwise (fun a b => a < b) (subs.map fun e => e.id)) :
    List.Pairwise (fun a b => a < b) ((addSubModule subs m).map fun e => e.id) := by
  induction subs with
  | nil => simp [addSubModule]
  | cons y rest ih =>
    simp only [List.map_cons, List.pairwise_cons] at h
    unfold addSubModule
    split
    · rename_i hlt
      simp only [List.map_cons, List.pairwise_cons, List.mem_cons]
      refine ⟨fun a ha => ?_, h.1, h.2⟩
      rcases ha with ha | ha
      · rw [ha]; exact hlt
      · exact Nat.lt_trans hlt (h.1 a ha)
    · split
      · simp only [List.map_cons, List.pairwise_cons]; exact h
      · rename_i hnlt hne
        simp only [List.map_cons, List.pairwise_cons]
        refine ⟨fun a ha => ?_, ih h.2⟩
        rcases addSubModule_ids rest m a ha with h2 | h2
        · rw [h2]; omega
        · exact h.1 a h2

theorem onTimer_wellFormed (s : SearchApi) (now : Nat) (hwf : s.wellFormed) : (s.onTimer now).wellFormed := by
  unfold SearchApi.wellFormed SearchApi.onTimer
  simp only [foldl_removeSubModule]
  exact List.Pairwise.sublist (List.Sublist.map _ (List.filter_sublist _)) hwf

/-- The order of the sub-module map is kept by every call: it holds in every state a
`SearchApi` reaches from the empty map. -/
theorem run_wellFormed (calls : List SearchApi.Call) (s : SearchApi) (hwf : s.wellFormed) :
    (s.run calls).1.wellFormed := by
  induction calls generalizing s with
  | nil => exact hwf
  | cons c rest ih =>
    cases c with
    | createInstance t =>
      simp only [SearchApi.run]
      exact ih _ (addSubModule_sorted _ _ hwf)
    | removeSubModule aId =>
      simp only [SearchApi.run]
      exact ih _ (List.Pairwise.sublist (List.Sublist.map _ (List.filter_sublist _)) hwf)
    | onTimer now =>
      simp only [SearchApi.run]
      exact ih _ (onTimer_wellFormed s now hwf)

/-- C20: for a sub-module map with distinct keys and every tick now, one run of onTimer leaves
exactly the instances that do not have expirationTick > 0 and now > expirationTick, each
unchanged and in order, and leaves the id counter as it was; so an instance with
expirationTick = 0 stays, an instance with expirationTick = E > 0 stays when now <= E and
is gone when now > E. -/
theorem C20_sweep (s : SearchApi) (now : Nat) (hwf : s.wellFormed) (m : SearchEntity)
    (hm : m ∈ s.subModules) :
    (s.onTimer now).subModules =
      s.subModules.filter (fun x => !(decide (x.expirationTick > 0) && decide (now > x.expirationTick))) ∧
    (s.onTimer now).instanceIdCounter = s.instanceIdCounter ∧
    (m.expirationTick = 0 → m ∈ (s.onTimer now).subModules) ∧
    (0 < m.expirationTick → now ≤ m.expirationTick → m ∈ (s.onTimer now).subModules) ∧
    (0 < m.expirationTick → now > m.expirationTick → m ∉ (s.onTimer now).subModules) := by
  have hsub := onTimer_subModules s now hwf
  simp only [SearchEntity.expired] at hsub
  refine ⟨hsub, rfl, fun h0 => ?_, fun h0 h1 => ?_, fun h0 h1 => ?_⟩
  · rw [hsub]; exact List.mem_filter.mpr ⟨hm, by simp [h0]⟩
  · rw [hsub]; exact List.mem_filter.mpr ⟨hm, by simp; omega⟩
  · rw [hsub]; intro hmem
    have := (List.mem_filter.mp hmem).2
    simp at this
    omega

/-- The instance of C20 at a map with a never-expiring instance, one expiring at 100 and one
expiring at 200, swept at the tick 150. -/
theorem C20_witness :
    ((SearchApi.mk 3 [⟨0, 0⟩, ⟨1, 100⟩, ⟨2, 200⟩]).onTimer 150).subModules =
      [⟨0, 0⟩, ⟨2, 200⟩] ∧
    (⟨1, 100⟩ : SearchEntity) ∉ ((SearchApi.mk 3 [⟨0, 0⟩, ⟨1, 100⟩, ⟨2, 200⟩]).onTimer 150).subModules :=
  ⟨(C20_sweep (SearchApi.mk 3 [⟨0, 0⟩, ⟨1, 100⟩, ⟨2, 200⟩]) 150 (by unfold SearchApi.wellFormed; decide)
      ⟨1, 100⟩ (by decide)).1.trans
      (by decide),
   (C20_sweep (SearchApi.mk 3 [⟨0, 0⟩, ⟨1, 100⟩, ⟨2, 200⟩]) 150 (by unfold SearchApi.wellFormed; decide)
      ⟨1, 100⟩ (by decide)).2.2.2.2
      (by decide) (by decide)⟩


/-! ### Expiration of created instances -/

/-- The expiration tick of a request for `m` minutes, 0 < m <= 35791, at a tick that leaves
room for it: the product stays inside `int`. -/
theorem expirationTickOf_small (now : Nat) (m : Int) (h0 : 0 < m) (h1 : m ≤ 35791)
    (hnow : now + 60000 * m.toNat < UINT64_MODULUS) :
    expirationTickOf now m = now + 60000 * m.toNat := by
  have h60 : wrapInt32 (m * 60) = m * 60 := wrapInt32_of_fits _ (by omega) (by omega)
  have h1000 : wrapInt32 (m * 60 * 1000) = m * 60 * 1000 := wrapInt32_of_fits _ (by omega) (by omega)
  have hcast : ((UINT64_MODULUS : Nat) : Int) = 18446744073709551616 := by
    unfold UINT64_MODULUS; norm_num
  have hmod : (m * 60 * 1000) % (18446744073709551616 : Int) = m * 60 * 1000 :=
    Int.emod_eq_of_lt (by omega) (by omega)
  have hnat : (m * 60 * 1000).toNat = 60000 * m.toNat := by omega
  unfold expirationTickOf
  rw [h60, h1000, hcast, hmod, hnat]
  exact Nat.mod_eq_of_lt hnow

/-- C21, the code at the failing input: a request for 0 minutes at the tick 1000 stores the
expiration tick 1000, not 0, and the sweep at the tick 1001 removes the instance. -/
theorem C21_failing_input :
    ((SearchApi.mk 1 []).handleCreateInstance 1000 (some (Json.number_integer 0))).toOption =
      some (⟨1, 1000⟩, SearchApi.mk 2 [⟨1, 1000⟩]) ∧
    ((SearchApi.mk 2 [⟨1, 1000⟩]).onTimer 1001).subModules = [] := by
  decide

/-- C25, the code at the failing input: a request for 35792 minutes at the tick 3000000000
stores the expiration tick 852552704, which is below the tick, and the sweep at the creation
tick removes the instance. -/
theorem C25_failing_input :
    ((SearchApi.mk 1 []).handleCreateInstance 3000000000 (some (Json.number_integer 35792))).toOption =
      some (⟨1, 852552704⟩, SearchApi.mk 2 [⟨1, 852552704⟩]) ∧
    (3000000000 + 60000 * 35792 : Nat) = 5147520000 ∧
    ((SearchApi.mk 2 [⟨1, 852552704⟩]).onTimer 3000000000).subModules = [] := by
  decide

/-! ### Type names -/

theorem deserializeType_typeNames (s : String) :
    deserializeType s ≠ SettingType.TYPE_LAST ↔ s ∈ typeNames := by
  simp only [typeNames, List.mem_cons, List.mem_singleton, List.not_mem_nil, or_false]
  unfold deserializeType
  constructor
  · intro h
    by_cases h1 : s = "string"
    · simp [h1]
    · by_cases h2 : s = "boolean"
      · simp [h2]
      · by_cases h3 : s = "number"
        · simp [h3]
        · by_cases h4 : s = "text"
          · simp [h4]
          · by_cases h5 : s = "file_path"
            · simp [h5]
            · by_cases h6 : s = "directory_path"
              · simp [h6]
              · simp [h1, h2, h3, h4, h5, h6] at h
  · intro h
    rcases h with h | h | h | h | h | h <;> subst h <;> decide

/-- C23: deserializeType(typeToStr(t)) = t for each of the six types; deserializeType(s) is
not TYPE_LAST exactly when s is one of the six names, and then typeToStr gives s back; and
for a declaration with a valid key and title whose type is the string s, fromJson fails
with a validation error on "type" when s is mapped to TYPE_LAST and never fails on "type"
otherwise. -/
theorem C23_type_names (t : SettingType) (s : String) (d : Declaration) (key title : String)
    (err : ArgumentException) :
    (t ≠ SettingType.TYPE_LAST → deserializeType (typeToStr t) = t) ∧
    (deserializeType s ≠ SettingType.TYPE_LAST ↔ s ∈ typeNames) ∧
    (deserializeType s ≠ SettingType.TYPE_LAST → typeToStr (deserializeType s) = s) ∧
    (d.key = some (Json.string key) → key ≠ "" → d.title = some (Json.string title) → title ≠ "" →
      d.type = some (Json.string s) →
      (deserializeType s = SettingType.TYPE_LAST →
        ServerSettingItem.fromJson d = Except.error ⟨"type", JsonUtil.ErrorType.ERROR_INVALID⟩) ∧
      (deserializeType s ≠ SettingType.TYPE_LAST →
        ServerSettingItem.fromJson d = Except.error err → err.field ≠ "type")) := by
  refine ⟨fun ht => ?_, deserializeType_typeNames s, fun hs => ?_, fun hk hk0 hti hti0 hty => ⟨fun hl => ?_, fun hs hfail => ?_⟩⟩
  · cases t <;> decide
  · have hmem := (deserializeType_typeNames s).mp hs
    simp only [typeNames, List.mem_cons, List.mem_singleton, List.not_mem_nil, or_false] at hmem
    rcases hmem with h | h | h | h | h | h <;> subst h <;> decide
  · have h1 : JsonUtil.getFieldString "key" d.key = Except.ok key := by
      simp [JsonUtil.getFieldString, JsonUtil.parseValueString, hk, hk0]
    have h2 : JsonUtil.getFieldString "title" d.title = Except.ok title := by
      simp [JsonUtil.getFieldString, JsonUtil.parseValueString, hti, hti0]
    by_cases he : s = ""
    · have h3 : JsonUtil.getFieldString "type" d.type =
          Except.error ⟨"type", JsonUtil.ErrorType.ERROR_INVALID⟩ := by
        simp [JsonUtil.getFieldString, JsonUtil.parseValueString, hty, he]
      simp [ServerSettingItem.fromJson, h1, h2, h3]
    · have h3 : JsonUtil.getFieldString "type" d.type = Except.ok s := by
        simp [JsonUtil.getFieldString, JsonUtil.parseValueString, hty, he]
      simp [ServerSettingItem.fromJson, h1, h2, h3, hl]
  · have h1 : JsonUtil.getFieldString "key" d.key = Except.ok key := by
      simp [JsonUtil.getFieldString, JsonUtil.parseValueString, hk, hk0]
    have h2 : JsonUtil.getFieldString "title" d.title = Except.ok title := by
      simp [JsonUtil.getFieldString, JsonUtil.parseValueString, hti, hti0]
    have he : s ≠ "" := by
      intro h0; subst h0; exact hs (by decide)
    have h3 : JsonUtil.getFieldString "type" d.type = Except.ok s := by
      simp [JsonUtil.getFieldString, JsonUtil.parseValueString, hty, he]
    unfold ServerSettingItem.fromJson at hfail
    rw [h1, h2, h3] at hfail
    simp only [hs, if_false] at hfail
    split at hfail
    · rename_i e1 hx
      simp only [Except.error.injEq] at hfail
      rw [← hfail, JsonUtil.getOptionalFieldDefaultBool_field _ _ _ _ hx]; decide
    · split at hfail
      · simp only [Except.error.injEq] at hfail
        rw [← hfail]; decide
      · split at hfail
        · rename_i e1 hx
          simp only [Except.error.injEq] at hfail
          rw [← hfail, JsonUtil.getOptionalRawField_field _ _ _ _ hx]; decide
        · split at hfail
          · rename_i e1 hx
            simp only [Except.error.injEq] at hfail
            rw [← hfail, JsonUtil.getOptionalFieldDefaultInt_field _ _ _ _ hx]; decide
          · split at hfail
            · rename_i e1 hx
              simp only [Except.error.injEq] at hfail
              rw [← hfail, JsonUtil.getOptionalFieldDefaultInt_field _ _ _ _ hx]; decide
            · simp at hfail

/-- The instance of C23 at the type directory_path, the name "list" and a declaration of
the type "list". -/
theorem C23_witness :
    deserializeType (typeToStr SettingType.TYPE_DIRECTORY_PATH) = SettingType.TYPE_DIRECTORY_PATH ∧
    ServerSettingItem.fromJson
        { key := some (Json.string "paths"), title := some (Json.string "Paths"),
          type := some (Json.string "list"), optional := none,
          defaultValue := none, min := none, max := none } =
      Except.error ⟨"type", JsonUtil.ErrorType.ERROR_INVALID⟩ :=
  ⟨(C23_type_names SettingType.TYPE_DIRECTORY_PATH "list"
      { key := some (Json.string "paths"), title := some (Json.string "Paths"),
        type := some (Json.string "list"), optional := none,
        defaultValue := none, min := none, max := none }
      "paths" "Paths" ⟨"type", JsonUtil.ErrorType.ERROR_INVALID⟩).1 (by decide),
   ((C23_type_names SettingType.TYPE_DIRECTORY_PATH "list"
      { key := some (Json.string "paths"), title := some (Json.string "Paths"),
        type := some (Json.string "list"), optional := none,
        defaultValue := none, min := none, max := none }
      "paths" "Paths" ⟨"type", JsonUtil.ErrorType.ERROR_INVALID⟩).2.2.2
      rfl (by decide) rfl (by decide) rfl).1 (by decide)⟩

/-! ### The envelope after a failed validation -/

/-- C24, as amended: when validate returns false with the reason "Unsupported method" or
"Not enough parameters" the envelope is as it was before the call; when it returns false
with the reason "Invalid version", apiModule holds the first parameter and the first two
parameters have been consumed, apiVersion and apiSection being as before. -/
theorem C24_failed_validate (r : ApiRequest) (aExistingSocket : Bool) (output_ : String)
    (hfail : (r.validate aExistingSocket output_).ok = false) :
    (((r.validate aExistingSocket output_).output = "Unsupported method" ∨
        (r.validate aExistingSocket output_).output = "Not enough parameters") →
      (r.validate aExistingSocket output_).request = r) ∧
    ((r.validate aExistingSocket output_).output = "Invalid version" →
      (r.validate aExistingSocket output_).request =
        { r with apiModule := front r.parameters, parameters := pop_front (pop_front r.parameters) }) ∧
    (r.validate aExistingSocket output_).request.apiVersion = r.apiVersion ∧
    (r.validate aExistingSocket output_).request.apiSection = r.apiSection := by
  unfold ApiRequest.validate at hfail ⊢
  by_cases hm : r.method = Method.METHOD_LAST
  · simp [hm]
  · by_cases hl : (r.parameters.length : Int) < (if aExistingSocket then 1 else 3)
    · simp [hm, hl]
    · rw [if_neg hm, if_neg hl] at hfail ⊢
      cases aExistingSocket with
      | true => simp [ApiRequest.consumeSection] at hfail
      | false =>
        by_cases hv : (front (pop_front r.parameters)).length < 2
        · simp [hv]
        · simp [hv, ApiRequest.consumeSection] at hfail

/-- The instance of C24 at the request built from the one-token path module. -/
theorem C24_witness :
    ((ApiRequest.construct exampleDefaults "module" "GET").validate false "").request =
      ApiRequest.construct exampleDefaults "module" "GET" :=
  (C24_failed_validate (ApiRequest.construct exampleDefaults "module" "GET") false "" (by decide)).1
    (Or.inr (by decide))

/-- C24 as first stated fails at module/v/section: validate(false) returns false with the
reason "Invalid version", apiModule has become "module" and only the parameter section is
left of the three. -/
theorem C24_counterexample :
    (ApiRequest.construct exampleDefaults "module/v/section" "GET").parameters = ["module", "v", "section"] ∧
    (ApiRequest.construct exampleDefaults "module/v/section" "GET").apiModule = "" ∧
    ((ApiRequest.construct exampleDefaults "module/v/section" "GET").validate false "").ok = false ∧
    ((ApiRequest.construct exampleDefaults "module/v/section" "GET").validate false "").output =
      "Invalid version" ∧
    ((ApiRequest.construct exampleDefaults "module/v/section" "GET").validate false "").request.apiModule =
      "module" ∧
    ((ApiRequest.construct exampleDefaults "module/v/section" "GET").validate false "").request.parameters =
      ["section"] := by
  decide


/-! ### Share roots -/

/-- With the root view active or a subscriber of share_root_removed, the removal of a path
found in the roots erases the root found and keeps the other roots in order. -/
theorem onRootRemoved_active (s : ShareRootApi) (aPath : String) (root : ShareDirectoryInfo)
    (hact : s.viewActive = true ∨ s.subscriptionActive "share_root_removed" = true)
    (hfind : s.findRoot aPath = some root) :
    (s.onRootRemoved aPath).1.roots = s.roots.filter (fun r => r ≠ root) ∧
    root ∉ (s.onRootRemoved aPath).1.roots := by
  have hcond : (!s.viewActive && !s.subscriptionActive "share_root_removed") = false := by
    rcases hact with h | h <;> simp [h]
  have hroots : (s.onRootRemoved aPath).1.roots = s.roots.filter (fun r => r ≠ root) := by
    simp [ShareRootApi.onRootRemoved, hcond, hfind]
  refine ⟨hroots, ?_⟩
  rw [hroots]
  intro hmem
  have := (List.mem_filter.mp hmem).2
  simp at this

/-- With a subscriber of share_root_removed, the removal of a path found in the roots sends
one payload for the topic, and the pointer it serialises is the null pointer. -/
theorem onRootRemoved_payload (s : ShareRootApi) (aPath : String) (root : ShareDirectoryInfo)
    (hsub : s.subscriptionActive "share_root_removed" = true)
    (hfind : s.findRoot aPath = some root) :
    (s.onRootRemoved aPath).2 =
      [ShareRootEffect.onItemRemoved (some root), ShareRootEffect.send "share_root_removed" none] := by
  simp [ShareRootApi.onRootRemoved, ShareRootApi.maybeSend, hsub, hfind]

/-- C22, the code at the failing input: with the root view inactive and no subscriber, the
events RootCreated and RootRemoved for one path leave the root in the local roots, where
the roots created and not removed are none. -/
theorem C22_failing_input :
    ((ShareRootApi.mk [] false []).deliver
      [ShareRootEvent.RootCreated exampleRoot, ShareRootEvent.RootRemoved "/share/"]).roots = [exampleRoot] ∧
    expectedRoots [] [ShareRootEvent.RootCreated exampleRoot, ShareRootEvent.RootRemoved "/share/"] = [] ∧
    ((ShareRootApi.mk [] true []).deliver
      [ShareRootEvent.RootCreated exampleRoot, ShareRootEvent.RootRemoved "/share/"]).roots = [] := by
  decide

/-- C27, the code at the failing input: with a subscriber of share_root_removed, the removal
of a root that is found sends a payload that serialises the null pointer `info`, not the
root found, while the creation of the same root serialises the root. -/
theorem C27_failing_input :
    (ShareRootApi.mk [exampleRoot] false ["share_root_removed"]).findRoot "/share/" = some exampleRoot ∧
    ((ShareRootApi.mk [exampleRoot] false ["share_root_removed"]).onRootRemoved "/share/").2 =
      [ShareRootEffect.onItemRemoved (some exampleRoot), ShareRootEffect.send "share_root_removed" none] ∧
    ((ShareRootApi.mk [] false ["share_root_created"]).onRootCreated exampleRoot).2 =
      [ShareRootEffect.onItemAdded (some exampleRoot),
       ShareRootEffect.send "share_root_created" (some exampleRoot)] := by
  decide


/-! ### Favorite hubs -/

/-- A validation error of the first part of `updateProperties`, on the name, the address or
the share profile, leaves the entry as it was. -/
theorem updateProperties_readValidated_error (g : FavoriteHubEngine) (aEntry : FavoriteHubEntry)
    (j : List (String × Json)) (aNewHub : Bool) (err : ArgumentException)
    (h : FavoriteHubApi.readValidated g aEntry j aNewHub = Except.error err) :
    FavoriteHubApi.updateProperties g aEntry j aNewHub = (some err, aEntry) := by
  simp [FavoriteHubApi.updateProperties, h]

/-- C26, the code at the failing input: a document with a new name and a string under
auto_connect fails with a validation error on auto_connect, and the entry has the new
name. -/
theorem C26_failing_input :
    FavoriteHubApi.updateProperties exampleHubEngine exampleHub
        [("auto_connect", Json.string "yes"), ("name", Json.string "New hub")] false =
      (some ⟨"auto_connect", JsonUtil.ErrorType.ERROR_INVALID⟩, { exampleHub with name := "New hub" }) ∧
    exampleHub.name = "Old hub" := by
  decide

end webserver
